import Mathlib

/-
Verification development for the Aircraft-Tire-Selector repository.

The tire physics oracle (models.py, class Tire) is embedded over the real
numbers; machine floats are idealised as reals, except where a claim is
specifically about IEEE NaN behaviour, in which case an Option-valued
variant makes NaN explicit (none stands for NaN).  The five search
strategies are embedded as total functions over explicit oracles for the
sources of nondeterminism of the Python code: the stream of
numpy.random.rand draws (a function from draw index to real), the stream
of numpy.random.choice picks (a function from pick index to natural), and
the elapsed-wall-clock checks (a function from check index to Bool, true
meaning the runtime budget is exhausted at that check).  Loops of the
source that have no bound at all are given an explicit fuel parameter;
running out of fuel is an artifact of the embedding and is noted at each
such definition.
-/

noncomputable section

open Classical

namespace TireSel

/-! ## Physical constants (scipy.constants values used by models.py) -/

/-- scipy.constants.inch, metres per inch. -/
def inchC : ℝ := 0.0254

/-- scipy.constants.lbf, newtons per pound-force. -/
def lbfC : ℝ := 4.4482216152605

/-- scipy.constants.psi, pascals per psi (pound-force per square inch). -/
def psiC : ℝ := lbfC / inchC ^ 2

/-- scipy.constants.mile, metres per mile. -/
def mileC : ℝ := 1609.344

/-- scipy.constants.hour, seconds per hour. -/
def hourC : ℝ := 3600

/-- scipy.constants.R, the molar gas constant. -/
def RgasC : ℝ := 8.31446261815324

/-- scipy.constants.degree, radians per degree. -/
def degC : ℝ := Real.pi / 180

/-! ## Design vectors and the Tire data model (models.py) -/

/-- The five key tire design dimensions, in the order PR, Dm, Wm, D, DF used
throughout the optimizers (the List dim of is_geo_valid, the first five genes
of a GA chromosome, a PSO particle position). -/
structure Dims where
  PR : ℝ
  Dm : ℝ
  Wm : ℝ
  D : ℝ
  DF : ℝ

/-- A Tire as the optimizers construct it: Tire(PR from, Dm, Wm, D, DF), with the
remaining constructor kwargs of models.py left at their defaults, so SI = 0 and
Pre is the empty string. -/
structure Tire where
  PR : ℝ
  Dm : ℝ
  Wm : ℝ
  D : ℝ
  DF : ℝ
  SI : ℝ
  Pre : String

/-- Construction Tire(PR=.., Dm=.., Wm=.., D=.., DF=..) as performed inside every
search strategy: the other constructor parameters keep their defaults. -/
def Tire.ofDims (g : Dims) : Tire := ⟨g.PR, g.Dm, g.Wm, g.D, g.DF, 0, ""⟩

/-- Lift ratio self.Lr = self.Dm / self.D computed in the Tire constructor. -/
def Tire.Lr (t : Tire) : ℝ := t.Dm / t.D

/-- Method Tire.get_key_dim: the list of PR, Dm, Wm, D, DF. -/
def Tire.get_key_dim (t : Tire) : Dims := ⟨t.PR, t.Dm, t.Wm, t.D, t.DF⟩

/-- Method Tire.aspect_ratio: (Dm - D) / 2 / Wm.  The Python method catches
ZeroDivisionError and returns None; here real division is total, and no claim
depends on the Wm = 0 case of this particular method. -/
def Tire.aspect_ratio (t : Tire) : ℝ := (t.Dm - t.D) / 2 / t.Wm

/-! ## The physics oracle (models.py methods) -/

/-- Method Tire.ratio_of_ends_per_inch as a function of the lift ratio Lr,
mirroring the if-elif-else chain of models.py lines 165-193 exactly: linear
branch for 1.5 < Lr < 2.2, degree-5 polynomial for 2.2 <= Lr < 5, and otherwise
the clamped formulas: the linear formula for Lr <= 1.5, and the polynomial
evaluated at the literal 5 for Lr >= 5. -/
def ratioOfEndsPerInch (Lr : ℝ) : ℝ :=
  if 1.5 < Lr ∧ Lr < 2.2 then
    1.475 - 0.331 * Lr
  else if 2.2 ≤ Lr ∧ Lr < 5 then
    -0.007651 * Lr ^ 5 + 0.14362 * Lr ^ 4 - 1.0668308 * Lr ^ 3
      + 3.9519228 * Lr ^ 2 - 7.4168297 * Lr + 6.3261135
  else if Lr ≤ 1.5 then
    1.475 - 0.331 * Lr
  else
    -0.007651 * 5 ^ 5 + 0.14362 * 5 ^ 4 - 1.0668308 * 5 ^ 3
      + 3.9519228 * 5 ^ 2 - 7.4168297 * 5 + 6.3261135

/-- Method Tire.ratio_of_ends_per_inch, reading self.Lr. -/
def Tire.ratio_of_ends_per_inch (t : Tire) : ℝ := ratioOfEndsPerInch t.Lr

/-- Method Tire.ground_contact_area with fractional deflection parameter b
(default 0.32 at every optimizer call site).  numpy sqrt is idealised as the
real square root here; the NaN-faithful variant is ground_contact_area_fp
below. -/
def Tire.ground_contact_area (t : Tire) (b : ℝ) : ℝ :=
  let d := b * (t.Dm - t.DF) / 2
  0.77 * Real.pi * d * Real.sqrt ((t.Dm - d) * (t.Wm - d))

/-- Argument of the square root inside Tire.ground_contact_area. -/
def Tire.gca_sqrt_arg (t : Tire) (b : ℝ) : ℝ :=
  let d := b * (t.Dm - t.DF) / 2
  (t.Dm - d) * (t.Wm - d)

/-- numpy.sqrt on a float: NaN for a negative argument (modelled as none),
the real square root otherwise.  No exception of any kind is raised. -/
def npSqrt (x : ℝ) : Option ℝ :=
  if 0 ≤ x then some (Real.sqrt x) else none

/-- Floating-point-faithful Tire.ground_contact_area: the result is NaN
(modelled as none) exactly when the square root argument is negative, because
numpy.sqrt silently returns NaN there; the code raises no error. -/
def Tire.ground_contact_area_fp (t : Tire) (b : ℝ) : Option ℝ :=
  (npSqrt (t.gca_sqrt_arg b)).map
    (fun s => 0.77 * Real.pi * (b * (t.Dm - t.DF) / 2) * s)

/-- Method Tire.pressure_index: all-rational empirical formula of models.py
lines 144-163; T0 is the constant 4.4 used for non-type-III tires. -/
def Tire.pressure_index (t : Tire) : ℝ :=
  let Re := t.ratio_of_ends_per_inch
  let Ne := t.PR - 0.4
  let T0 : ℝ := 4.4
  let a := (t.Dm - t.D) / 4
  let Q := 2.5 + t.D / (2 * t.Dm)
  let S := a * Q
  let F0 := -1.623104e-7 * t.D ^ 5 + 1.463062e-5 * t.D ^ 4
    - 5.607522e-4 * t.D ^ 3 + 0.01288401 * t.D ^ 2 - 0.197904 * t.D + 2.567982
  (40 * Re * T0 * Ne) / (S * F0)

/-- Method Tire.load_supporting_capability: PR if Wm < 5.5, else
10.4 PR squared over Wm squared. -/
def Tire.load_supporting_capability (t : Tire) : ℝ :=
  if t.Wm < 5.5 then t.PR else 10.4 * t.PR ^ 2 / t.Wm ^ 2

/-- numpy.round on a real: round half to even (bankers rounding), which is the
documented tie rule of numpy.round. -/
def roundHalfEven (x : ℝ) : ℤ :=
  if Int.fract x < 1 / 2 then ⌊x⌋
  else if 1 / 2 < Int.fract x then ⌊x⌋ + 1
  else if Even ⌊x⌋ then ⌊x⌋ else ⌊x⌋ + 1

/-- numpy.round as a real-valued function. -/
def npRound (x : ℝ) : ℝ := (roundHalfEven x : ℝ)

/-- Method Tire.max_load_capacity: ground contact area times the sum of
pressure index and load supporting capability; returned exactly when exact is
true, otherwise np.round(Lm / 25) * 25 rounds to the nearest 25-lb increment. -/
def Tire.max_load_capacity (t : Tire) (exact : Bool) : ℝ :=
  let Lm := t.ground_contact_area 0.32 * (t.pressure_index + t.load_supporting_capability)
  if exact then Lm else npRound (Lm / 25) * 25

/-- Method Tire.inflation_pressure.  The bias or low-speed branch fires when
Pre is B or H or the Python-truthy test (self.SI and self.SI <= 160) holds,
that is when SI is nonzero and at most 160; the optimizer-built tires have
Pre empty and SI = 0, hence take the pressure-index branch. -/
def Tire.inflation_pressure (t : Tire) : ℝ :=
  let Pc := t.load_supporting_capability
  let P :=
    if t.Pre = "B" ∨ t.Pre = "H" ∨ (t.SI ≠ 0 ∧ t.SI ≤ 160) then
      t.max_load_capacity false / (0.35 + 0.45) / t.ground_contact_area 0.35 - Pc
    else
      t.pressure_index
  let X := if 100 < P then (0.5 : ℝ) else 0.01 * P - 0.5
  P + X * Pc + 3

/-- Method Tire.inflation_medium_mass with explicit arguments; the Python
truthy default (if not P_gas) means a zero P_gas is replaced by the computed
inflation pressure. -/
def Tire.inflation_medium_mass (t : Tire) (P_gas P_amb T M_gas : ℝ) : ℝ :=
  let Pg := if P_gas = 0 then t.inflation_pressure else P_gas
  let P_abs := (Pg + P_amb) * psiC
  let H := (t.Dm - t.D) / 2
  let V := Real.pi ^ 2 * t.Wm * H * (t.D + H) / 4 * inchC ^ 3
  P_abs * V * M_gas / RgasC / T / 1000

/-- The zero-argument call tire.inflation_medium_mass() used as the objective
by every optimizer: all defaults, P_gas = 0.0, P_amb = 14.7, T = 298.15,
M_gas = 28.0134. -/
def Tire.mass (t : Tire) : ℝ := t.inflation_medium_mass 0 14.7 298.15 28.0134

/-- Inner function psi of Tire.cord_tension_walter. -/
def walterPsi (ρ β_c : ℝ) : ℝ :=
  (2 * ρ * (1 - ρ ^ 2 * Real.sin β_c ^ 2) ^ ((2 : ℝ) / 3)
    - ρ * (1 - ρ ^ 2 * Real.sin β_c ^ 2) ^ ((1 : ℝ) / 2)
    - Real.arcsin (ρ * Real.sin β_c) / Real.sin β_c) / (4 * Real.sin β_c ^ 2)

/-- Method Tire.cord_tension_walter with the keyword defaults it is always
called with baked in (beta_c = 30 deg, m_1 = 71e-6, rho = 0.9,
beta_s = 45 deg); N and n_ply stay parameters, a zero value selecting the
defaults 1360 and ceil(PR / 8) as in the source. -/
def Tire.cord_tension_walter (t : Tire) (N n_ply : ℝ) : ℝ :=
  let n_ply2 := if n_ply = 0 then ((⌈t.PR / 8⌉ : ℤ) : ℝ) else n_ply
  let N2 := if N = 0 then (1360 : ℝ) else N
  let β_c := 30.0 * degC
  let β_s := 45.00 * degC
  let m_1 : ℝ := 71e-6
  let ρ : ℝ := 0.9
  let r_c := t.Dm / 2
  let r_w := t.Dm / 2 - (t.Dm - t.D) / 4
  let ρ_w := r_w / r_c
  let ω := t.SI * (mileC / inchC / hourC) / r_c
  let Ω := r_c * ω ^ 2 / t.inflation_pressure
  Real.pi * t.inflation_pressure * r_c ^ 2 *
      ((1 - ρ_w ^ 2) * Real.cos β_c + m_1 * Ω * (walterPsi ρ β_c - walterPsi 1 β_c)) /
      (N2 * n_ply2 * (1 - ρ ^ 2 * Real.sin β_s ^ 2)) * lbfC

/-- Method Tire.cord_tension_netting with the keyword defaults it is always
called with baked in (alpha = 30 deg, phi = 90 deg); N and n_ply stay
parameters, a zero value selecting the defaults 1540 and ceil(PR / 8). -/
def Tire.cord_tension_netting (t : Tire) (N n_ply : ℝ) : ℝ :=
  let n_ply2 := if n_ply = 0 then ((⌈t.PR / 8⌉ : ℤ) : ℝ) else n_ply
  let N2 := if N = 0 then (1540 : ℝ) else N
  let α := 30.0 * degC
  let φ := 90.0 * degC
  Real.pi * t.inflation_pressure / (N2 * n_ply2) *
      ((t.Dm / 2) ^ 2 - (t.Dm / 2 - (t.Dm - t.D) / 4) ^ 2) /
      Real.sin α / Real.sin φ * lbfC

/-- Method Tire.is_mech_feasible with explicit model and break_load arguments
(the source defaults, used at every optimizer call site, are the walter model
with break_load 338.0 and N = n_ply = 0).  The source raises ValueError on an
unsupported model string; that branch is unreachable in this development and
is modelled as False. -/
def Tire.is_mech_feasible (t : Tire) (model : String) (break_load : ℝ) : Prop :=
  if model = "walter" then t.cord_tension_walter 0 0 < break_load
  else if model = "netting" then t.cord_tension_netting 0 0 < break_load
  else False

/-! ## Feasibility predicate (optimizations/randSearch.py, is_geo_valid) -/

/-- Function is_geo_valid of randSearch.py: rejects on geometric ordering or
aspect-ratio violation, then on insufficient exact load capacity, then on
mechanical infeasibility (walter model, break load 338.0); on success returns
the constructed Tire.  False of the source is modelled as none. -/
def is_geo_valid (dim : Dims) (req_Lm : ℝ) : Option Tire :=
  let asp := (dim.Dm - dim.D) / 2 / dim.Wm
  if dim.Dm ≤ dim.DF ∨ dim.DF ≤ dim.D ∨ asp < 0.5 ∨ 1 < asp then none
  else
    let tire := Tire.ofDims dim
    if tire.max_load_capacity true < req_Lm then none
    else if tire.is_mech_feasible "walter" 338.0 then some tire
    else none

/-! ## Genetic algorithm (optimizations/genAlg.py) -/

/-- A GA chromosome: the five design genes plus the embedded required load,
List of PR, Dm, Wm, D, DF, req_Lm in the source. -/
structure Chrom where
  PR : ℝ
  Dm : ℝ
  Wm : ℝ
  D : ℝ
  DF : ℝ
  req_Lm : ℝ

/-- First five genes of a chromosome as a design vector. -/
def Chrom.dims (c : Chrom) : Dims := ⟨c.PR, c.Dm, c.Wm, c.D, c.DF⟩

/-- Method GA_Individual.cal_fitness: infinite fitness (modelled as the top
element) for geometry violations, insufficient exact load capacity, or
mechanical infeasibility; otherwise the tire inflation-medium mass. -/
def cal_fitness (c : Chrom) : WithTop ℝ :=
  let asp := (c.Dm - c.D) / 2 / c.Wm
  if c.Dm ≤ c.DF ∨ c.DF ≤ c.D ∨ asp < 0.5 ∨ 1 < asp then ⊤
  else
    let tire := Tire.ofDims c.dims
    if tire.max_load_capacity true < c.req_Lm then ⊤
    else if ¬ tire.is_mech_feasible "walter" 338.0 then ⊤
    else ((tire.mass : ℝ) : WithTop ℝ)

/-- A GA individual: chromosome plus its fitness computed at construction. -/
structure GA_Individual where
  chromosome : Chrom
  fitness : WithTop ℝ

instance : Inhabited GA_Individual := ⟨⟨⟨0, 0, 0, 0, 0, 0⟩, ⊤⟩⟩

/-- Constructor GA_Individual(chromosome): stores the chromosome and computes
its fitness. -/
def GA_Individual.make (c : Chrom) : GA_Individual := ⟨c, cal_fitness c⟩

/-- Classmethod GA_Individual.mutated_gene: scope minimum plus a uniform draw
r (the np.random.rand() value) times the scope width. -/
def mutated_gene (scope : ℝ × ℝ) (r : ℝ) : ℝ := scope.1 + r * (scope.2 - scope.1)

/-- Continuous variable scopes: Dict of variable name to (min, max), with one
field per design variable. -/
structure Scopes where
  PR : ℝ × ℝ
  Dm : ℝ × ℝ
  Wm : ℝ × ℝ
  D : ℝ × ℝ
  DF : ℝ × ℝ

/-- Classmethod GA_Individual.create_gnome: one mutated gene per design
variable in source order PR, Dm, Wm, D, DF, then the required load; consumes
the five rand draws at indices k to k+4. -/
def create_gnome (req_Lm : ℝ) (s : Scopes) (r : ℕ → ℝ) (k : ℕ) : Chrom :=
  ⟨mutated_gene s.PR (r k), mutated_gene s.Dm (r (k + 1)), mutated_gene s.Wm (r (k + 2)),
    mutated_gene s.D (r (k + 3)), mutated_gene s.DF (r (k + 4)), req_Lm⟩

/-- One gene of GA_Individual.mate: draw prob at index k; copy from parent 1
when prob < (1 - prob_mutate) / 2, from parent 2 when prob < 1 - prob_mutate,
else mutate (consuming one more draw).  Returns the gene and the next free
draw index. -/
def mateGene (g1 g2 : ℝ) (scope : ℝ × ℝ) (prob_mutate : ℝ) (r : ℕ → ℝ) (k : ℕ) : ℝ × ℕ :=
  let prob := r k
  if prob < (1 - prob_mutate) / 2 then (g1, k + 1)
  else if prob < 1 - prob_mutate then (g2, k + 1)
  else (mutated_gene scope (r (k + 1)), k + 2)

/-- Method GA_Individual.mate: raises ValueError (modelled as Except.error)
when prob_mutate is outside the unit interval, otherwise builds the offspring
gene by gene and appends the required-load gene of parent 1. -/
def GA_Individual.mate (p1 p2 : GA_Individual) (s : Scopes) (prob_mutate : ℝ)
    (r : ℕ → ℝ) (k : ℕ) : Except String (GA_Individual × ℕ) :=
  if 1 < prob_mutate ∨ prob_mutate < 0 then
    .error "prob_mutate must be between 0 and 1."
  else
    let gPR := mateGene p1.chromosome.PR p2.chromosome.PR s.PR prob_mutate r k
    let gDm := mateGene p1.chromosome.Dm p2.chromosome.Dm s.Dm prob_mutate r gPR.2
    let gWm := mateGene p1.chromosome.Wm p2.chromosome.Wm s.Wm prob_mutate r gDm.2
    let gD := mateGene p1.chromosome.D p2.chromosome.D s.D prob_mutate r gWm.2
    let gDF := mateGene p1.chromosome.DF p2.chromosome.DF s.DF prob_mutate r gD.2
    .ok (GA_Individual.make
      ⟨gPR.1, gDm.1, gWm.1, gD.1, gDF.1, p1.chromosome.req_Lm⟩, gDF.2)

/-- Statement sorted(population, key=lambda x: x.fitness): a stable merge sort
by nondecreasing fitness. -/
def sortByFitness (l : List GA_Individual) : List GA_Individual :=
  l.mergeSort (fun a b => decide (a.fitness ≤ b.fitness))

/-- The initialization loop of ga_opt for one individual: starting from the
placeholder gnome with all genes 0.01, repeatedly draw a fresh random gnome
while the fitness is infinite.  The source loop has no runtime check and no
other exit; the fuel parameter is an artifact of the embedding (exhausted fuel
returns the current, still infeasible, gnome). -/
def gaFindGnome (req_Lm : ℝ) (s : Scopes) (r : ℕ → ℝ) :
    ℕ → GA_Individual → ℕ → GA_Individual × ℕ
  | 0, g, kr => (g, kr)
  | fuel + 1, g, kr =>
    if g.fitness = ⊤ then
      gaFindGnome req_Lm s r fuel (GA_Individual.make (create_gnome req_Lm s r kr)) (kr + 5)
    else (g, kr)

/-- The population-creation loop of ga_opt: pop_size individuals, each either
a copy of the provided init_gene or the result of the random initialization
loop.  Returns the population and the next free rand-draw index. -/
def gaInitPopulation (req_Lm : ℝ) (s : Scopes) (init_gene : Option Chrom)
    (r : ℕ → ℝ) (initFuel : ℕ) : ℕ → ℕ → List GA_Individual × ℕ
  | 0, kr => ([], kr)
  | n + 1, kr =>
    match init_gene with
    | some g =>
      let rest := gaInitPopulation req_Lm s init_gene r initFuel n kr
      (GA_Individual.make g :: rest.1, rest.2)
    | none =>
      let g := gaFindGnome req_Lm s r initFuel
        (GA_Individual.make ⟨0.01, 0.01, 0.01, 0.01, 0.01, req_Lm⟩) kr
      let rest := gaInitPopulation req_Lm s init_gene r initFuel n g.2
      (g.1 :: rest.1, rest.2)

/-- The offspring loop of one ga_opt generation: n children, each mating two
parents drawn (np.random.choice, modelled by the pick stream ch reduced modulo
the slice length) from the fittest half of the population.  Propagates the
ValueError of mate; returns the children together with the next free rand and
pick indices. -/
def gaChildren (pop : List GA_Individual) (half : ℕ) (s : Scopes) (prob_mutate : ℝ)
    (r : ℕ → ℝ) (ch : ℕ → ℕ) :
    ℕ → ℕ → ℕ → Except String (List GA_Individual × ℕ × ℕ)
  | 0, kr, kc => .ok ([], kr, kc)
  | n + 1, kr, kc =>
    match ((pop.take half).getD (ch kc % half) default).mate
        ((pop.take half).getD (ch (kc + 1) % half) default) s prob_mutate r kr with
    | .error e => .error e
    | .ok child =>
      match gaChildren pop half s prob_mutate r ch n child.2 (kc + 2) with
      | .error e => .error e
      | .ok rest => .ok (child.1 :: rest.1, rest.2)

/-- Convergence test of ga_opt joined with the Python float semantics: the
source evaluates (curr_best - population[0].fitness) / curr_best <= conv and
curr_best != inf; when curr_best is infinite the arithmetic yields NaN whose
comparison is False, and the explicit inequality check also fails, so the
whole test is False exactly when curr_best is the top element. -/
def gaConvCheck (curr_best f0 : WithTop ℝ) (conv_fitness : ℝ) : Prop :=
  curr_best ≠ ⊤ ∧ (curr_best.untop' 0 - f0.untop' 0) / curr_best.untop' 0 ≤ conv_fitness

/-- Tire(PR=.., Dm=.., ...) built from the head individual of the population,
as done at each return site of ga_opt.  The source indexes population[0],
which cannot fail since pop_size is at least 3; an empty list gives none. -/
def gaTire (pop : List GA_Individual) : Option Tire :=
  match pop with
  | [] => none
  | ind :: _ => some (Tire.ofDims ind.chromosome.dims)

/-- The generational loop of ga_opt (for i in range(n_iter)): elitism keeps
the top 10 percent (1 individual when pop_size is at most 10), the offspring
loop fills the rest, the new generation is sorted by fitness, then the
convergence test and the runtime check run in source order.  The fuel is the
remaining iteration count n_iter - i; timeUp i is the wall-clock check of
iteration i. -/
def gaLoop (s : Scopes) (pop_size : ℕ) (prob_mutate conv_fitness : ℝ)
    (timeUp : ℕ → Bool) (r : ℕ → ℝ) (ch : ℕ → ℕ) :
    ℕ → ℕ → ℕ → ℕ → List GA_Individual → WithTop ℝ → Except String (Option Tire)
  | 0, _, _, _, pop, _ => .ok (gaTire pop)
  | fuel + 1, i, kr, kc, pop, curr_best =>
    let s1 := if pop_size ≤ 10 then 1 else pop_size / 10
    match gaChildren pop (pop_size / 2) s prob_mutate r ch (pop_size - s1) kr kc with
    | .error e => .error e
    | .ok res =>
    let newPop := sortByFitness (pop.take s1 ++ res.1)
    let f0 := newPop.headI.fitness
    if f0 < curr_best then
      if gaConvCheck curr_best f0 conv_fitness then .ok (gaTire newPop)
      else if timeUp i then .ok (gaTire newPop)
      else (gaLoop s pop_size prob_mutate conv_fitness timeUp r ch fuel (i + 1)
              res.2.1 res.2.2 newPop f0)
    else if timeUp i then .ok (gaTire newPop)
    else (gaLoop s pop_size prob_mutate conv_fitness timeUp r ch fuel (i + 1)
            res.2.1 res.2.2 newPop curr_best)

/-- Function ga_opt of genAlg.py: the sanity check on pop_size raises
ValueError at call time; then the initial population is created (init_gene
given, or the random initialization loop per individual), sorted, and the
generational loop runs for n_iter iterations.  Randomness and wall-clock
checks are explicit oracles; initFuel bounds the unbounded initialization
loop of the source (embedding artifact). -/
def ga_opt (req_Lm speed_index : ℝ) (s : Scopes) (pop_size : ℕ) (prob_mutate : ℝ)
    (init_gene : Option Chrom) (n_iter : ℕ) (timeUp : ℕ → Bool) (conv_fitness : ℝ)
    (r : ℕ → ℝ) (ch : ℕ → ℕ) (initFuel : ℕ) : Except String (Option Tire) :=
  if pop_size < 3 then .error "Population size needs to be >= 3 to be effective."
  else
    let init := gaInitPopulation req_Lm s init_gene r initFuel pop_size 0
    let pop := sortByFitness init.1
    gaLoop s pop_size prob_mutate conv_fitness timeUp r ch n_iter 0 init.2 0 pop
      pop.headI.fitness

/-! ## Random search (optimizations/randSearch.py) -/

/-- One element of itertools.product([-1, 0, 1], repeat=5): a step of -1, 0 or
+1 per design variable, in the source variable order PR, Dm, Wm, D, DF. -/
structure Move where
  mPR : ℤ
  mDm : ℤ
  mWm : ℤ
  mD : ℤ
  mDF : ℤ

/-- The step list [-1, 0, 1]. -/
def steps3 : List ℤ := [-1, 0, 1]

/-- List move_options = itertools.product([-1, 0, 1], repeat=5). -/
def move_options : List Move :=
  steps3.flatMap fun a =>
    steps3.flatMap fun b =>
      steps3.flatMap fun c =>
        steps3.flatMap fun d =>
          steps3.map fun e => ⟨a, b, c, d, e⟩

/-- Discrete variable scopes: Dict of variable name to the array of available
values. -/
structure DScopes where
  PR : List ℝ
  Dm : List ℝ
  Wm : List ℝ
  D : List ℝ
  DF : List ℝ

/-- Index of the current value in a discrete scope array, as found by
np.where(scopes[var] == value)[0][0].  The source crashes when the value is
absent; values handled by rs_discrete are always scope members. -/
def scopeIdx (l : List ℝ) (v : ℝ) : ℤ := (l.findIdx fun x => decide (x = v) : ℕ)

/-- One variable of a discrete move: index of the current value plus the step
times step_size; valid only when the shifted index stays inside the array. -/
def moveVal (l : List ℝ) (curr : ℝ) (mv : ℤ) (step_size : ℕ) : Option ℝ :=
  let mi := scopeIdx l curr + mv * step_size
  if 0 ≤ mi ∧ mi < (l.length : ℤ) then some (l.getD mi.toNat 0) else none

/-- The temp_dim construction of rs_discrete for one move: per-variable shifted
values, failing (valid_move = False) as soon as one variable leaves its scope. -/
def rsMoveDimsD (s : DScopes) (step_size : ℕ) (cur : Dims) (m : Move) : Option Dims := do
  let pr ← moveVal s.PR cur.PR m.mPR step_size
  let dm ← moveVal s.Dm cur.Dm m.mDm step_size
  let wm ← moveVal s.Wm cur.Wm m.mWm step_size
  let d ← moveVal s.D cur.D m.mD step_size
  let df ← moveVal s.DF cur.DF m.mDF step_size
  pure ⟨pr, dm, wm, d, df⟩

/-- One variable of a continuous move: current value plus the step times
step_size, valid when inside the half-open scope interval. -/
def moveValC (scope : ℝ × ℝ) (curr : ℝ) (mv : ℤ) (step_size : ℝ) : Option ℝ :=
  let v := curr + (mv : ℝ) * step_size
  if scope.1 ≤ v ∧ v < scope.2 then some v else none

/-- The temp_dim construction of rs_continuous for one move. -/
def rsMoveDimsC (s : Scopes) (step_size : ℝ) (cur : Dims) (m : Move) : Option Dims := do
  let pr ← moveValC s.PR cur.PR m.mPR step_size
  let dm ← moveValC s.Dm cur.Dm m.mDm step_size
  let wm ← moveValC s.Wm cur.Wm m.mWm step_size
  let d ← moveValC s.D cur.D m.mD step_size
  let df ← moveValC s.DF cur.DF m.mDF step_size
  pure ⟨pr, dm, wm, d, df⟩

/-- The inner for-move loop of one rs_discrete iteration: starting from
iter_best_tire = curr_best_tire, each in-scope move is evaluated through
is_geo_valid and adopted when its inflation-medium mass is strictly below the
running best. -/
def rsExploreD (req_Lm : ℝ) (s : DScopes) (step_size : ℕ) (curr : Tire) : Tire :=
  move_options.foldl
    (fun iterBest m =>
      match rsMoveDimsD s step_size curr.get_key_dim m with
      | none => iterBest
      | some dims =>
        match is_geo_valid dims req_Lm with
        | none => iterBest
        | some t => if t.mass < iterBest.mass then t else iterBest)
    curr

/-- The inner for-move loop of one rs_continuous iteration. -/
def rsExploreC (req_Lm : ℝ) (s : Scopes) (step_size : ℝ) (curr : Tire) : Tire :=
  move_options.foldl
    (fun iterBest m =>
      match rsMoveDimsC s step_size curr.get_key_dim m with
      | none => iterBest
      | some dims =>
        match is_geo_valid dims req_Lm with
        | none => iterBest
        | some t => if t.mass < iterBest.mass then t else iterBest)
    curr

/-- Modelled from the spec: the Explore step keeps, among the current point and
all feasible in-bounds neighbors, the design of lowest inflation-medium mass
(first encountered wins ties). -/
def specBestByMass (curr : Tire) (candidates : List Tire) : Tire :=
  candidates.foldl (fun best t => if t.mass < best.mass then t else best) curr

/-- Modelled from the spec: the Explore state of the discrete random search -
enumerate the 243 combinatorial moves, keep those inside the variable scopes,
evaluate each through the feasibility predicate, and keep the best feasible
neighbor by mass. -/
def spec_explore_discrete (req_Lm : ℝ) (s : DScopes) (step_size : ℕ) (curr : Tire) : Tire :=
  specBestByMass curr
    ((move_options.filterMap (rsMoveDimsD s step_size curr.get_key_dim)).filterMap
      (fun d => is_geo_valid d req_Lm))

/-- Modelled from the spec: the Explore state of the continuous random search. -/
def spec_explore_continuous (req_Lm : ℝ) (s : Scopes) (step_size : ℝ) (curr : Tire) : Tire :=
  specBestByMass curr
    ((move_options.filterMap (rsMoveDimsC s step_size curr.get_key_dim)).filterMap
      (fun d => is_geo_valid d req_Lm))

/-- The main iteration loop of rs_discrete (for i in range(n_iter)): if the
explored best equals the current best, return the current best; else if the
relative mass improvement is within the fitness tolerance or the runtime is
exhausted, return the explored best; else adopt it and continue.  Exhausted
fuel is the for-loop running out of iterations, returning the current best as
in the source. -/
def rs_loop_discrete (req_Lm : ℝ) (s : DScopes) (step_size : ℕ) (fitness : ℝ)
    (timeUp : ℕ → Bool) : ℕ → ℕ → Tire → Option Tire
  | 0, _, curr => some curr
  | fuel + 1, i, curr =>
    let iterBest := rsExploreD req_Lm s step_size curr
    if iterBest = curr then some curr
    else if (curr.mass - iterBest.mass) / curr.mass ≤ fitness ∨ timeUp i then some iterBest
    else rs_loop_discrete req_Lm s step_size fitness timeUp fuel (i + 1) iterBest

/-- The main iteration loop of rs_continuous. -/
def rs_loop_continuous (req_Lm : ℝ) (s : Scopes) (step_size : ℝ) (fitness : ℝ)
    (timeUp : ℕ → Bool) : ℕ → ℕ → Tire → Option Tire
  | 0, _, curr => some curr
  | fuel + 1, i, curr =>
    let iterBest := rsExploreC req_Lm s step_size curr
    if iterBest = curr then some curr
    else if (curr.mass - iterBest.mass) / curr.mass ≤ fitness ∨ timeUp i then some iterBest
    else rs_loop_continuous req_Lm s step_size fitness timeUp fuel (i + 1) iterBest

/-- The random initialization loop shared by rs_discrete and rs_continuous:
sample a random design (the sample stream abstracts the per-variable random
draws), break when is_geo_valid accepts it, and return None when the runtime
check fires after an invalid sample.  The fuel is an embedding artifact; the
source loop is bounded only by the runtime check.  Returns the accepted tire
and the next free sample index. -/
def rs_rand_init (req_Lm : ℝ) (sample : ℕ → Dims) (timeUp : ℕ → Bool) :
    ℕ → ℕ → Option (Tire × ℕ)
  | 0, _ => none
  | fuel + 1, k =>
    match is_geo_valid (sample k) req_Lm with
    | some t => some (t, k + 1)
    | none =>
      if timeUp k then none
      else rs_rand_init req_Lm sample timeUp fuel (k + 1)

/-- Function rs_discrete of randSearch.py: an init_dim is validated and used
when valid, otherwise (and when absent) the random initialization loop runs;
the main loop then searches the discrete neighborhood.  A failed
initialization returns None. -/
def rs_discrete (req_Lm speed_index : ℝ) (s : DScopes) (step_size : ℕ)
    (n_iter : ℕ) (timeUp : ℕ → Bool) (fitness : ℝ) (init_dim : Option Dims)
    (sample : ℕ → Dims) (initFuel : ℕ) : Option Tire :=
  let start : Option (Tire × ℕ) :=
    match init_dim with
    | some d =>
      match is_geo_valid d req_Lm with
      | some t => some (t, 0)
      | none => rs_rand_init req_Lm sample timeUp initFuel 0
    | none => rs_rand_init req_Lm sample timeUp initFuel 0
  match start with
  | none => none
  | some st => rs_loop_discrete req_Lm s step_size fitness timeUp n_iter st.2 st.1

/-- Function rs_continuous of randSearch.py. -/
def rs_continuous (req_Lm speed_index : ℝ) (s : Scopes) (step_size : ℝ)
    (n_iter : ℕ) (timeUp : ℕ → Bool) (fitness : ℝ) (init_dim : Option Dims)
    (sample : ℕ → Dims) (initFuel : ℕ) : Option Tire :=
  let start : Option (Tire × ℕ) :=
    match init_dim with
    | some d =>
      match is_geo_valid d req_Lm with
      | some t => some (t, 0)
      | none => rs_rand_init req_Lm sample timeUp initFuel 0
    | none => rs_rand_init req_Lm sample timeUp initFuel 0
  match start with
  | none => none
  | some st => rs_loop_continuous req_Lm s step_size fitness timeUp n_iter st.2 st.1

/-! ## Particle swarm optimization (optimizations/pso.py) -/

/-- A PSO particle restricted to the data its objective method reads: the
embedded required load and the current position (PR, Dm, Wm, D, DF). -/
structure PSO_Particle where
  req_Lm : ℝ
  position : Dims

/-- Method PSO_Particle.calc_obj: infinite objective (top element) for
geometry violations, insufficient exact load capacity, or mechanical
infeasibility; otherwise the tire inflation-medium mass. -/
def PSO_Particle.calc_obj (p : PSO_Particle) : WithTop ℝ :=
  let asp := (p.position.Dm - p.position.D) / 2 / p.position.Wm
  if p.position.Dm ≤ p.position.DF ∨ p.position.DF ≤ p.position.D ∨ asp < 0.5 ∨ 1 < asp then ⊤
  else
    let tire := Tire.ofDims p.position
    if tire.max_load_capacity true < p.req_Lm then ⊤
    else if ¬ tire.is_mech_feasible "walter" 338.0 then ⊤
    else ((tire.mass : ℝ) : WithTop ℝ)

/-! ## Bayesian optimization (optimizations/bayesOps.py) -/

/-- The objective_func closure inside _bayesOps_opt: the large negative
sentinel -1e24 for geometry violations, insufficient rounded load capacity
(max_load_capacity is called with its default exact=False here), or
mechanical infeasibility; otherwise minus the inflation-medium mass. -/
def bayes_objective (req_Lm : ℝ) (dim : Dims) : ℝ :=
  let asp := (dim.Dm - dim.D) / 2 / dim.Wm
  if dim.Dm ≤ dim.DF ∨ dim.DF ≤ dim.D ∨ asp < 0.5 ∨ 1 < asp then -1e24
  else
    let tire := Tire.ofDims dim
    if tire.max_load_capacity false < req_Lm then -1e24
    else if ¬ tire.is_mech_feasible "walter" 338.0 then -1e24
    else -tire.mass

/-- The final candidate validation of _bayesOps_opt (lines 94-103): the tire is
built from the optimizer.max parameters and returned exactly when its rounded
load capacity (max_load_capacity with default exact=False) reaches the
required load; otherwise the attempt yields None. -/
def bayesFinalCheck (opt_params : Dims) (req_Lm : ℝ) : Option Tire :=
  let tire := Tire.ofDims opt_params
  if req_Lm ≤ tire.max_load_capacity false then some tire else none

/-- Function bayesOps_opt: while not tire, run one _bayesOps_opt attempt with a
fresh surrogate.  Each attempt is abstracted as the stream attempts (the k-th
entry being the outcome of the k-th call, itself ending in bayesFinalCheck).
The source loop has no retry bound and no runtime check; fuel is an embedding
artifact (exhausted fuel returns none, whereas the source would keep looping). -/
def bayesOps_opt (attempts : ℕ → Option Tire) : ℕ → ℕ → Option Tire
  | 0, _ => none
  | fuel + 1, k =>
    match attempts k with
    | some t => some t
    | none => bayesOps_opt attempts fuel (k + 1)

/-! ## Gradient-based optimization (optimizations/gradients.py) -/

/-- Function gradients_opt: while not tire, run one _gradients_opt attempt
(abstracted as the function attempt from the required load it is given to its
outcome, None on solver failure) and then increment the required load by 1.
The source loop has no retry cap and no runtime check, and never surfaces
failure; fuel is an embedding artifact (exhausted fuel returns none, whereas
the source would keep looping). -/
def gradients_opt (attempt : ℝ → Option Tire) : ℝ → ℕ → Option Tire
  | _, 0 => none
  | req_Lm, fuel + 1 =>
    match attempt req_Lm with
    | some t => some t
    | none => gradients_opt attempt (req_Lm + 1) fuel

/-! ## Helper lemmas on rounding -/

theorem roundHalfEven_mem (x : ℝ) :
    roundHalfEven x = ⌊x⌋ ∧ Int.fract x ≤ 1 / 2 ∨
      roundHalfEven x = ⌊x⌋ + 1 ∧ 1 / 2 ≤ Int.fract x := by
  unfold roundHalfEven
  split_ifs with hA hB hC
  · exact Or.inl ⟨rfl, le_of_lt hA⟩
  · exact Or.inr ⟨rfl, le_of_lt hB⟩
  · exact Or.inl ⟨rfl, le_of_not_lt hB⟩
  · exact Or.inr ⟨rfl, le_of_not_lt hA⟩

theorem roundHalfEven_nearest (x : ℝ) (m : ℤ) :
    |(roundHalfEven x : ℝ) - x| ≤ |(m : ℝ) - x| := by
  have hfr : Int.fract x = x - ⌊x⌋ := rfl
  have h0 := Int.fract_nonneg x
  have h1 := Int.fract_lt_one x
  have hfl : (⌊x⌋ : ℝ) ≤ x := Int.floor_le x
  have hfu : x < (⌊x⌋ : ℝ) + 1 := Int.lt_floor_add_one x
  rcases le_or_lt m ⌊x⌋ with hm | hm
  · have hm' : (m : ℝ) ≤ (⌊x⌋ : ℝ) := by exact_mod_cast hm
    have habs : |(m : ℝ) - x| = x - m := by
      rw [abs_sub_comm]; exact abs_of_nonneg (by linarith)
    rcases roundHalfEven_mem x with ⟨he, hle⟩ | ⟨he, hle⟩ <;> rw [he, habs]
    · rw [abs_sub_comm, abs_of_nonneg (by linarith)]
      linarith
    · push_cast
      rw [abs_of_nonneg (by linarith)]
      linarith
  · have hm' : (⌊x⌋ : ℝ) + 1 ≤ (m : ℝ) := by exact_mod_cast hm
    have habs : |(m : ℝ) - x| = m - x := abs_of_nonneg (by linarith)
    rcases roundHalfEven_mem x with ⟨he, hle⟩ | ⟨he, hle⟩ <;> rw [he, habs]
    · rw [abs_sub_comm, abs_of_nonneg (by linarith)]
      linarith
    · push_cast
      rw [abs_of_nonneg (by linarith)]
      linarith

theorem roundHalfEven_tie_even (x : ℝ) (h : Int.fract x = 1 / 2) :
    Even (roundHalfEven x) := by
  unfold roundHalfEven
  rw [h]
  norm_num
  split_ifs with he
  · exact he
  · exact Int.even_add_one.mpr he

theorem roundHalfEven_nonneg (x : ℝ) (h : 0 ≤ x) : 0 ≤ roundHalfEven x := by
  have hfl : 0 ≤ ⌊x⌋ := Int.floor_nonneg.mpr h
  rcases roundHalfEven_mem x with ⟨he, _⟩ | ⟨he, _⟩ <;> rw [he] <;> omega

theorem max_load_capacity_false_eq (t : Tire) :
    t.max_load_capacity false = npRound (t.max_load_capacity true / 25) * 25 := by
  simp [Tire.max_load_capacity]

/-! ## Claim C2: piecewise behaviour and clamping of ratio_of_ends_per_inch -/

/-- C2: ratio_of_ends_per_inch is piecewise in Lr: the linear formula on the
open interval (1.5, 2.2), the degree-5 polynomial on [2.2, 5); at Lr = 1.5 and
at Lr = 1.5 - eps it uses the same linear branch, and at Lr = 5 + eps it
returns the identical value obtained by clamping to Lr = 5, never
extrapolating the polynomial. -/
theorem claim_C2_ratio_piecewise (Lr ε : ℝ) :
    (1.5 < Lr → Lr < 2.2 → ratioOfEndsPerInch Lr = 1.475 - 0.331 * Lr) ∧
    (2.2 ≤ Lr → Lr < 5 →
      ratioOfEndsPerInch Lr =
        -0.007651 * Lr ^ 5 + 0.14362 * Lr ^ 4 - 1.0668308 * Lr ^ 3
          + 3.9519228 * Lr ^ 2 - 7.4168297 * Lr + 6.3261135) ∧
    (ratioOfEndsPerInch 1.5 = 1.475 - 0.331 * 1.5) ∧
    (0 < ε → ratioOfEndsPerInch (1.5 - ε) = 1.475 - 0.331 * (1.5 - ε)) ∧
    (0 ≤ ε → ratioOfEndsPerInch (5 + ε) = ratioOfEndsPerInch 5) := by
  refine ⟨?_, ?_, ?_, ?_, ?_⟩
  · intro h1 h2
    rw [ratioOfEndsPerInch, if_pos ⟨h1, h2⟩]
  · intro h1 h2
    rw [ratioOfEndsPerInch, if_neg (by rintro ⟨h3, h4⟩; linarith), if_pos ⟨h1, h2⟩]
  · norm_num [ratioOfEndsPerInch]
  · intro h
    rw [ratioOfEndsPerInch, if_neg (by rintro ⟨h3, h4⟩; linarith),
      if_neg (by rintro ⟨h3, h4⟩; linarith), if_pos (by linarith)]
  · intro h
    rw [ratioOfEndsPerInch, if_neg (by rintro ⟨h3, h4⟩; linarith),
      if_neg (by rintro ⟨h3, h4⟩; linarith), if_neg (by intro h3; linarith)]
    rw [show ratioOfEndsPerInch 5 =
        -0.007651 * 5 ^ 5 + 0.14362 * 5 ^ 4 - 1.0668308 * 5 ^ 3
          + 3.9519228 * 5 ^ 2 - 7.4168297 * 5 + 6.3261135 from by
      norm_num [ratioOfEndsPerInch]]

/-- Witness for C2 at the concrete points Lr = 2, Lr = 3, eps = 0.25. -/
theorem claim_C2_ratio_piecewise_witness :
    ratioOfEndsPerInch 2 = 1.475 - 0.331 * 2 ∧
    ratioOfEndsPerInch 3 =
      -0.007651 * 3 ^ 5 + 0.14362 * 3 ^ 4 - 1.0668308 * 3 ^ 3
        + 3.9519228 * 3 ^ 2 - 7.4168297 * 3 + 6.3261135 ∧
    ratioOfEndsPerInch (1.5 - 0.25) = 1.475 - 0.331 * (1.5 - 0.25) ∧
    ratioOfEndsPerInch (5 + 0.25) = ratioOfEndsPerInch 5 :=
  ⟨(claim_C2_ratio_piecewise 2 0).1 (by norm_num) (by norm_num),
    (claim_C2_ratio_piecewise 3 0).2.1 (by norm_num) (by norm_num),
    (claim_C2_ratio_piecewise 0 0.25).2.2.2.1 (by norm_num),
    (claim_C2_ratio_piecewise 0 0.25).2.2.2.2 (by norm_num)⟩

/-! ## Claim C3: rounding behaviour of max_load_capacity -/

/-- C3: for every tire, max_load_capacity(exact=False) is a multiple of 25, it
is at least as close to max_load_capacity(exact=True) as any other multiple of
25, and the tie-breaking rule of the underlying np.round primitive is the
fixed round-half-to-even rule, the same for all inputs. -/
theorem claim_C3_rounding (t : Tire) (m : ℤ) (x : ℝ) :
    (∃ k : ℤ, t.max_load_capacity false = 25 * (k : ℝ)) ∧
    |t.max_load_capacity false - t.max_load_capacity true| ≤
      |25 * (m : ℝ) - t.max_load_capacity true| ∧
    (Int.fract x = 1 / 2 → Even (roundHalfEven x)) := by
  have heq := max_load_capacity_false_eq t
  refine ⟨⟨roundHalfEven (t.max_load_capacity true / 25), by rw [heq, npRound]; ring⟩,
    ?_, fun h => roundHalfEven_tie_even x h⟩
  rw [heq, npRound]
  have h25 : t.max_load_capacity true = t.max_load_capacity true / 25 * 25 := by ring
  have key := roundHalfEven_nearest (t.max_load_capacity true / 25) m
  calc |(roundHalfEven (t.max_load_capacity true / 25) : ℝ) * 25 - t.max_load_capacity true|
      = |((roundHalfEven (t.max_load_capacity true / 25) : ℝ)
          - t.max_load_capacity true / 25) * 25| := by rw [sub_mul]; rw [← h25]
    _ = |(roundHalfEven (t.max_load_capacity true / 25) : ℝ)
          - t.max_load_capacity true / 25| * 25 := by
        rw [abs_mul]; norm_num
    _ ≤ |(m : ℝ) - t.max_load_capacity true / 25| * 25 := by
        have h : (0:ℝ) ≤ 25 := by norm_num
        exact mul_le_mul_of_nonneg_right key h
    _ = |25 * (m : ℝ) - t.max_load_capacity true| := by
        rw [show (25 : ℝ) * m - t.max_load_capacity true
            = ((m : ℝ) - t.max_load_capacity true / 25) * 25 from by ring, abs_mul]
        norm_num

/-- Witness for C3: the half-increment tie at x = 206.5 (corresponding to an
exact load of 5162.5 lbs) rounds to the even integer 206, that is to 5150. -/
theorem claim_C3_rounding_witness :
    Int.fract ((413 : ℝ) / 2) = 1 / 2 ∧ Even (roundHalfEven ((413 : ℝ) / 2)) := by
  have hf : Int.fract ((413 : ℝ) / 2) = 1 / 2 := by
    rw [Int.fract, show ⌊(413 : ℝ) / 2⌋ = 206 from by rw [Int.floor_eq_iff] <;> norm_num]
    norm_num
  exact ⟨hf, (claim_C3_rounding ⟨10, 21, 7, 10, 12, 0, ""⟩ 0 ((413 : ℝ) / 2)).2.2 hf⟩

/-! ## Helper lemmas on the retry wrappers -/

theorem gradients_opt_mem (attempt : ℝ → Option Tire) :
    ∀ (fuel : ℕ) (req : ℝ) (t : Tire), gradients_opt attempt req fuel = some t →
      ∃ j : ℕ, attempt (req + j) = some t := by
  intro fuel
  induction fuel with
  | zero => intro req t h; exact absurd h (by simp [gradients_opt])
  | succ n ih =>
    intro req t h
    rw [gradients_opt] at h
    cases ha : attempt req with
    | some u =>
      simp only [ha] at h
      refine ⟨0, ?_⟩
      rw [Nat.cast_zero, add_zero, ha, h]
    | none =>
      simp only [ha] at h
      obtain ⟨j, hj⟩ := ih (req + 1) t h
      refine ⟨j + 1, ?_⟩
      rw [show req + ((j : ℕ) + 1 : ℕ) = req + 1 + (j : ℕ) by push_cast; ring]
      exact hj

theorem gradients_opt_first_success (attempt : ℝ → Option Tire) :
    ∀ (k fuel : ℕ) (req : ℝ) (t : Tire), (∀ j : ℕ, j < k → attempt (req + j) = none) →
      attempt (req + k) = some t → k < fuel → gradients_opt attempt req fuel = some t := by
  intro k
  induction k with
  | zero =>
    intro fuel req t _ hk hlt
    obtain ⟨f, rfl⟩ := Nat.exists_eq_succ_of_ne_zero (Nat.pos_iff_ne_zero.mp hlt)
    rw [gradients_opt]
    rw [Nat.cast_zero, add_zero] at hk
    rw [hk]
  | succ n ih =>
    intro fuel req t hnone hk hlt
    obtain ⟨f, rfl⟩ := Nat.exists_eq_succ_of_ne_zero (Nat.pos_iff_ne_zero.mp (Nat.lt_of_le_of_lt (Nat.zero_le _) hlt))
    rw [gradients_opt]
    have h0 : attempt req = none := by
      have := hnone 0 (Nat.succ_pos n)
      rwa [Nat.cast_zero, add_zero] at this
    rw [h0]
    refine ih f (req + 1) t (fun j hj => ?_) ?_ (Nat.lt_of_succ_lt_succ hlt)
    · have := hnone (j + 1) (Nat.succ_lt_succ hj)
      rwa [show req + ((j : ℕ) + 1 : ℕ) = req + 1 + (j : ℕ) by push_cast; ring] at this
    · rwa [show req + 1 + (n : ℕ) = req + ((n : ℕ) + 1 : ℕ) by push_cast; ring]

theorem gradients_opt_all_fail : ∀ (fuel : ℕ) (req : ℝ),
    gradients_opt (fun _ => none) req fuel = none := by
  intro fuel
  induction fuel with
  | zero => intro req; rfl
  | succ n ih => intro req; rw [gradients_opt]; exact ih (req + 1)

theorem bayesOps_opt_mem (attempts : ℕ → Option Tire) :
    ∀ (fuel k : ℕ) (t : Tire), bayesOps_opt attempts fuel k = some t →
      ∃ j : ℕ, attempts j = some t := by
  intro fuel
  induction fuel with
  | zero => intro k t h; exact absurd h (by simp [bayesOps_opt])
  | succ n ih =>
    intro k t h
    rw [bayesOps_opt] at h
    cases ha : attempts k with
    | some u => simp only [ha] at h; exact ⟨k, by rw [ha, h]⟩
    | none => simp only [ha] at h; exact ih (k + 1) t h

theorem bayesOps_opt_all_fail : ∀ (fuel k : ℕ),
    bayesOps_opt (fun _ => none) fuel k = none := by
  intro fuel
  induction fuel with
  | zero => intro k; rfl
  | succ n ih => intro k; rw [bayesOps_opt]; exact ih (k + 1)

/-! ## Claim C7: gradient-method retry loop -/

/-- C7 amended: on solver failure gradients_opt retries with the required load
incremented by 1, so the j-th attempt runs at req_Lm + j and the first
successful attempt is returned; but the source loop has no retry cap at all
and never surfaces failure: with an always-failing solver it never exits on
its own (the fuel bound is an artifact of the embedding). -/
theorem claim_C7_gradients_retry (attempt : ℝ → Option Tire) (req : ℝ) (fuel k : ℕ) (t : Tire) :
    (gradients_opt attempt req fuel = some t → ∃ j : ℕ, attempt (req + j) = some t) ∧
    ((∀ j : ℕ, j < k → attempt (req + j) = none) → attempt (req + k) = some t →
      k < fuel → gradients_opt attempt req fuel = some t) ∧
    gradients_opt (fun _ => none) req fuel = none :=
  ⟨fun h => gradients_opt_mem attempt fuel req t h,
    fun h1 h2 h3 => gradients_opt_first_success attempt k fuel req t h1 h2 h3,
    gradients_opt_all_fail fuel req⟩

/-- Concrete tire design used by retry-wrapper witnesses and counterexamples. -/
def tireW : Tire := Tire.ofDims ⟨10, 21, 7, 10, 12⟩

/-- An attempt oracle that fails until the required load reaches 50. -/
def attemptAt50 : ℝ → Option Tire := fun r => if r = 50 then some tireW else none

/-- Witness for C7: with a solver that first converges at required load 50,
the wrapper makes 51 attempts (required loads 0, 1, ..., 50) and returns the
design of the successful one. -/
theorem claim_C7_gradients_retry_witness :
    gradients_opt attemptAt50 0 100 = some tireW ∧
    (∃ j : ℕ, attemptAt50 (0 + j) = some tireW) := by
  have h50 : attemptAt50 ((0 : ℝ) + (50 : ℕ)) = some tireW := by
    rw [attemptAt50, if_pos (by norm_num)]
  have hrun : gradients_opt attemptAt50 0 100 = some tireW := by
    refine (claim_C7_gradients_retry attemptAt50 0 100 50 tireW).2.1 (fun j hj => ?_) h50
      (by norm_num)
    rw [attemptAt50, if_neg]
    have hne : (j : ℝ) ≠ 50 := by exact_mod_cast hj.ne
    simpa using hne
  exact ⟨hrun, (claim_C7_gradients_retry attemptAt50 0 100 50 tireW).1 hrun⟩

/-- Counterexample for C7: the retry loop is not bounded by any small retry
cap: a solver that fails on the first 50 attempts still gets a 51st attempt,
whose result is returned, and a solver that always fails never causes failure
to be surfaced by the loop itself (only the embedding fuel stops it). -/
theorem claim_C7_counterexample :
    gradients_opt attemptAt50 0 100 = some tireW ∧
    gradients_opt (fun _ => none) 0 1000 = none := by
  constructor
  · refine gradients_opt_first_success attemptAt50 50 100 0 tireW (fun j hj => ?_) ?_ (by norm_num)
    · rw [attemptAt50, if_neg]
      have hne : (j : ℝ) ≠ 50 := by exact_mod_cast hj.ne
      simpa using hne
    · rw [attemptAt50, if_pos (by norm_num)]
  · exact gradients_opt_all_fail 1000 0

/-! ## Claim C6: Bayesian final validation and retries -/

/-- C6 amended: every attempt of the Bayesian optimizer ends in a final
re-validation of the candidate against required_load, but the check uses the
rounded load capacity (max_load_capacity with default exact=False); the
wrapper returns only tires produced by some attempt, and with all attempts
failing it retries without any bound (never exiting on its own; the fuel
bound is an artifact of the embedding). -/
theorem claim_C6_bayes_revalidation (dim : Dims) (req : ℝ) (t : Tire)
    (attempts : ℕ → Option Tire) (fuel k : ℕ) :
    (bayesFinalCheck dim req = some t → req ≤ t.max_load_capacity false) ∧
    (bayesOps_opt attempts fuel k = some t → ∃ j : ℕ, attempts j = some t) ∧
    bayesOps_opt (fun _ => none) fuel k = none := by
  refine ⟨?_, fun h => bayesOps_opt_mem attempts fuel k t h, bayesOps_opt_all_fail fuel k⟩
  intro h
  rw [bayesFinalCheck] at h
  split_ifs at h with hc
  cases h
  exact hc

/-! ## Claim C9: random-search exploration and termination -/

theorem rsExploreD_eq_spec (req : ℝ) (s : DScopes) (step_size : ℕ) (curr : Tire) :
    rsExploreD req s step_size curr = spec_explore_discrete req s step_size curr := by
  rw [rsExploreD, spec_explore_discrete, specBestByMass, List.filterMap_filterMap]
  suffices h : ∀ (l : List Move) (acc : Tire),
      l.foldl
        (fun iterBest m =>
          match rsMoveDimsD s step_size curr.get_key_dim m with
          | none => iterBest
          | some dims =>
            match is_geo_valid dims req with
            | none => iterBest
            | some t => if t.mass < iterBest.mass then t else iterBest)
        acc
      = (l.filterMap fun m =>
          (rsMoveDimsD s step_size curr.get_key_dim m).bind fun d => is_geo_valid d req).foldl
          (fun best t => if t.mass < best.mass then t else best) acc from
    h move_options curr
  intro l
  induction l with
  | nil => intro acc; rfl
  | cons a l ih =>
    intro acc
    simp only [List.foldl_cons, List.filterMap_cons]
    cases hm : rsMoveDimsD s step_size curr.get_key_dim a with
    | none => simp only [Option.none_bind]; exact ih acc
    | some d =>
      simp only [Option.some_bind]
      cases hg : is_geo_valid d req with
      | none => exact ih acc
      | some t => simp only [List.foldl_cons]; exact ih _

theorem rsExploreC_eq_spec (req : ℝ) (s : Scopes) (step_size : ℝ) (curr : Tire) :
    rsExploreC req s step_size curr = spec_explore_continuous req s step_size curr := by
  rw [rsExploreC, spec_explore_continuous, specBestByMass, List.filterMap_filterMap]
  suffices h : ∀ (l : List Move) (acc : Tire),
      l.foldl
        (fun iterBest m =>
          match rsMoveDimsC s step_size curr.get_key_dim m with
          | none => iterBest
          | some dims =>
            match is_geo_valid dims req with
            | none => iterBest
            | some t => if t.mass < iterBest.mass then t else iterBest)
        acc
      = (l.filterMap fun m =>
          (rsMoveDimsC s step_size curr.get_key_dim m).bind fun d => is_geo_valid d req).foldl
          (fun best t => if t.mass < best.mass then t else best) acc from
    h move_options curr
  intro l
  induction l with
  | nil => intro acc; rfl
  | cons a l ih =>
    intro acc
    simp only [List.foldl_cons, List.filterMap_cons]
    cases hm : rsMoveDimsC s step_size curr.get_key_dim a with
    | none => simp only [Option.none_bind]; exact ih acc
    | some d =>
      simp only [Option.some_bind]
      cases hg : is_geo_valid d req with
      | none => exact ih acc
      | some t => simp only [List.foldl_cons]; exact ih _

/-- C9: each random-search iteration enumerates exactly the 243 moves of
-1, 0, +1 steps per dimension; the inner loop computes precisely the
spec-level Explore step (in-bounds moves, each evaluated through the
feasibility predicate, keeping the feasible neighbor of lowest
inflation-medium mass); and one step of the main loop terminates with the
current best when no feasible neighbor improves on it, terminates with the
explored best when the relative mass decrease is within the convergence
tolerance (or the runtime is exhausted), and otherwise adopts the explored
best and repeats. -/
theorem claim_C9_rs_neighborhood (req : ℝ) (sD : DScopes) (sC : Scopes) (stepD : ℕ)
    (stepC fitness : ℝ) (timeUp : ℕ → Bool) (fuel i : ℕ) (curr : Tire) :
    move_options.length = 243 ∧
    rsExploreD req sD stepD curr = spec_explore_discrete req sD stepD curr ∧
    rsExploreC req sC stepC curr = spec_explore_continuous req sC stepC curr ∧
    rs_loop_discrete req sD stepD fitness timeUp (fuel + 1) i curr =
      (if spec_explore_discrete req sD stepD curr = curr then some curr
       else if (curr.mass - (spec_explore_discrete req sD stepD curr).mass) / curr.mass ≤ fitness
           ∨ timeUp i then some (spec_explore_discrete req sD stepD curr)
       else rs_loop_discrete req sD stepD fitness timeUp fuel (i + 1)
         (spec_explore_discrete req sD stepD curr)) ∧
    rs_loop_continuous req sC stepC fitness timeUp (fuel + 1) i curr =
      (if spec_explore_continuous req sC stepC curr = curr then some curr
       else if (curr.mass - (spec_explore_continuous req sC stepC curr).mass) / curr.mass ≤ fitness
           ∨ timeUp i then some (spec_explore_continuous req sC stepC curr)
       else rs_loop_continuous req sC stepC fitness timeUp fuel (i + 1)
         (spec_explore_continuous req sC stepC curr)) := by
  refine ⟨rfl, rsExploreD_eq_spec req sD stepD curr, rsExploreC_eq_spec req sC stepC curr, ?_, ?_⟩
  · rw [rs_loop_discrete, rsExploreD_eq_spec]
  · rw [rs_loop_continuous, rsExploreC_eq_spec]

/-! ## Claim C1: feasibility of returned designs -/

/-- The feasibility invariant claimed for returned designs: geometric ordering
D < DF < Dm, aspect ratio in [0.5, 1], and exact load capacity at least the
required load. -/
def feasible_result (req : ℝ) (t : Tire) : Prop :=
  t.D < t.DF ∧ t.DF < t.Dm ∧ 0.5 ≤ t.aspect_ratio ∧ t.aspect_ratio ≤ 1 ∧
    req ≤ t.max_load_capacity true

/-- The invariant lifted to an optional result: vacuous for a no-solution
outcome. -/
def result_feasible (req : ℝ) : Option Tire → Prop
  | none => True
  | some t => feasible_result req t

theorem is_geo_valid_feasible {dim : Dims} {req : ℝ} {t : Tire}
    (h : is_geo_valid dim req = some t) : feasible_result req t := by
  simp only [is_geo_valid] at h
  by_cases h1 : dim.Dm ≤ dim.DF ∨ dim.DF ≤ dim.D ∨ (dim.Dm - dim.D) / 2 / dim.Wm < 0.5 ∨
      1 < (dim.Dm - dim.D) / 2 / dim.Wm
  · rw [if_pos h1] at h; cases h
  · rw [if_neg h1] at h
    by_cases h2 : (Tire.ofDims dim).max_load_capacity true < req
    · rw [if_pos h2] at h; cases h
    · rw [if_neg h2] at h
      by_cases h3 : (Tire.ofDims dim).is_mech_feasible "walter" 338.0
      · rw [if_pos h3] at h
        cases h
        push_neg at h1
        obtain ⟨hDF, hD, hasp1, hasp2⟩ := h1
        exact ⟨hD, hDF, hasp1, hasp2, le_of_not_lt h2⟩
      · rw [if_neg h3] at h; cases h

theorem rsExploreD_feasible (req : ℝ) (s : DScopes) (step_size : ℕ) (curr : Tire)
    (h : feasible_result req curr) : feasible_result req (rsExploreD req s step_size curr) := by
  rw [rsExploreD]
  have : ∀ (l : List Move) (acc : Tire), feasible_result req acc →
      feasible_result req (l.foldl
        (fun iterBest m =>
          match rsMoveDimsD s step_size curr.get_key_dim m with
          | none => iterBest
          | some dims =>
            match is_geo_valid dims req with
            | none => iterBest
            | some t => if t.mass < iterBest.mass then t else iterBest)
        acc) := by
    intro l
    induction l with
    | nil => intro acc hacc; exact hacc
    | cons a l ih =>
      intro acc hacc
      rw [List.foldl_cons]
      refine ih _ ?_
      cases hm : rsMoveDimsD s step_size curr.get_key_dim a with
      | none => exact hacc
      | some d =>
        simp only
        cases hg : is_geo_valid d req with
        | none => exact hacc
        | some t =>
          simp only
          split_ifs with hlt
          · exact is_geo_valid_feasible hg
          · exact hacc
  exact this move_options curr h

theorem rsExploreC_feasible (req : ℝ) (s : Scopes) (step_size : ℝ) (curr : Tire)
    (h : feasible_result req curr) : feasible_result req (rsExploreC req s step_size curr) := by
  rw [rsExploreC]
  have : ∀ (l : List Move) (acc : Tire), feasible_result req acc →
      feasible_result req (l.foldl
        (fun iterBest m =>
          match rsMoveDimsC s step_size curr.get_key_dim m with
          | none => iterBest
          | some dims =>
            match is_geo_valid dims req with
            | none => iterBest
            | some t => if t.mass < iterBest.mass then t else iterBest)
        acc) := by
    intro l
    induction l with
    | nil => intro acc hacc; exact hacc
    | cons a l ih =>
      intro acc hacc
      rw [List.foldl_cons]
      refine ih _ ?_
      cases hm : rsMoveDimsC s step_size curr.get_key_dim a with
      | none => exact hacc
      | some d =>
        simp only
        cases hg : is_geo_valid d req with
        | none => exact hacc
        | some t =>
          simp only
          split_ifs with hlt
          · exact is_geo_valid_feasible hg
          · exact hacc
  exact this move_options curr h

theorem rs_loop_discrete_feasible (req : ℝ) (s : DScopes) (step_size : ℕ) (fitness : ℝ)
    (timeUp : ℕ → Bool) : ∀ (fuel i : ℕ) (curr : Tire), feasible_result req curr →
      result_feasible req (rs_loop_discrete req s step_size fitness timeUp fuel i curr) := by
  intro fuel
  induction fuel with
  | zero => intro i curr h; exact h
  | succ n ih =>
    intro i curr h
    rw [rs_loop_discrete]
    split_ifs with h1 h2
    · exact h
    · exact rsExploreD_feasible req s step_size curr h
    · exact ih (i + 1) _ (rsExploreD_feasible req s step_size curr h)

theorem rs_loop_continuous_feasible (req : ℝ) (s : Scopes) (step_size : ℝ) (fitness : ℝ)
    (timeUp : ℕ → Bool) : ∀ (fuel i : ℕ) (curr : Tire), feasible_result req curr →
      result_feasible req (rs_loop_continuous req s step_size fitness timeUp fuel i curr) := by
  intro fuel
  induction fuel with
  | zero => intro i curr h; exact h
  | succ n ih =>
    intro i curr h
    rw [rs_loop_continuous]
    split_ifs with h1 h2
    · exact h
    · exact rsExploreC_feasible req s step_size curr h
    · exact ih (i + 1) _ (rsExploreC_feasible req s step_size curr h)

theorem rs_rand_init_feasible (req : ℝ) (sample : ℕ → Dims) (timeUp : ℕ → Bool) :
    ∀ (fuel k : ℕ) (t : Tire) (k' : ℕ),
      rs_rand_init req sample timeUp fuel k = some (t, k') → feasible_result req t := by
  intro fuel
  induction fuel with
  | zero => intro k t k' h; exact absurd h (by simp [rs_rand_init])
  | succ n ih =>
    intro k t k' h
    rw [rs_rand_init] at h
    cases hg : is_geo_valid (sample k) req with
    | some u =>
      simp only [hg] at h
      cases h
      exact is_geo_valid_feasible hg
    | none =>
      simp only [hg] at h
      split_ifs at h
      exact ih (k + 1) t k' h

/-- C1 amended: every design returned by rs_discrete or rs_continuous
satisfies the feasibility invariant D < DF < Dm, aspect ratio in [0.5, 1.0],
and exact load capacity at least the required load; the claim does not hold
for the other strategies (see the counterexample: ga_opt returns the best
individual at budget exhaustion even when it is infeasible, pso_opt returns
the current particle position on its runtime exit, and the final check of the
Bayesian optimizer validates only the rounded load capacity). -/
theorem claim_C1_feasibility_amended (req si : ℝ) (sD : DScopes) (sC : Scopes)
    (stepD : ℕ) (stepC : ℝ) (n_iter : ℕ) (timeUp : ℕ → Bool) (fitness : ℝ)
    (init_dim : Option Dims) (sample : ℕ → Dims) (initFuel : ℕ) :
    result_feasible req
      (rs_discrete req si sD stepD n_iter timeUp fitness init_dim sample initFuel) ∧
    result_feasible req
      (rs_continuous req si sC stepC n_iter timeUp fitness init_dim sample initFuel) := by
  constructor
  · rw [rs_discrete.eq_def]
    cases init_dim with
    | some d =>
      cases hg : is_geo_valid d req with
      | some t =>
        simp only [hg]
        exact rs_loop_discrete_feasible req sD stepD fitness timeUp n_iter 0 t
          (is_geo_valid_feasible hg)
      | none =>
        simp only [hg]
        cases hr : rs_rand_init req sample timeUp initFuel 0 with
        | none => exact trivial
        | some st =>
          exact rs_loop_discrete_feasible req sD stepD fitness timeUp n_iter st.2 st.1
            (rs_rand_init_feasible req sample timeUp initFuel 0 st.1 st.2 (by rw [hr]))
    | none =>
      cases hr : rs_rand_init req sample timeUp initFuel 0 with
      | none => exact trivial
      | some st =>
        exact rs_loop_discrete_feasible req sD stepD fitness timeUp n_iter st.2 st.1
          (rs_rand_init_feasible req sample timeUp initFuel 0 st.1 st.2 (by rw [hr]))
  · rw [rs_continuous.eq_def]
    cases init_dim with
    | some d =>
      cases hg : is_geo_valid d req with
      | some t =>
        simp only [hg]
        exact rs_loop_continuous_feasible req sC stepC fitness timeUp n_iter 0 t
          (is_geo_valid_feasible hg)
      | none =>
        simp only [hg]
        cases hr : rs_rand_init req sample timeUp initFuel 0 with
        | none => exact trivial
        | some st =>
          exact rs_loop_continuous_feasible req sC stepC fitness timeUp n_iter st.2 st.1
            (rs_rand_init_feasible req sample timeUp initFuel 0 st.1 st.2 (by rw [hr]))
    | none =>
      cases hr : rs_rand_init req sample timeUp initFuel 0 with
      | none => exact trivial
      | some st =>
        exact rs_loop_continuous_feasible req sC stepC fitness timeUp n_iter st.2 st.1
          (rs_rand_init_feasible req sample timeUp initFuel 0 st.1 st.2 (by rw [hr]))

/-! ## Concrete GA runs: counterexample material for C1, C4, C8 -/

/-- An infeasible chromosome: aspect ratio (30 - 10) / (2 * 5) = 2 violates the
upper bound 1, with embedded required load 100. -/
def badChrom : Chrom := ⟨10, 30, 5, 10, 12, 100⟩

/-- The continuous variable scopes used in the repository examples. -/
def cexScopes : Scopes := ⟨(4, 38), (12, 56), (4, 21), (4, 24), (5, 33)⟩

/-- Degenerate single-point scopes whose only reachable design is infeasible. -/
def stuckScopes : Scopes := ⟨(10, 10), (30, 30), (5, 5), (10, 10), (12, 12)⟩

/-- A rand stream that always draws 0. -/
def zeroR : ℕ → ℝ := fun _ => 0

/-- A pick stream that always picks index 0. -/
def zeroC : ℕ → ℕ := fun _ => 0

/-- A wall-clock oracle with the runtime budget never exhausted. -/
def falseT : ℕ → Bool := fun _ => false

theorem cal_fitness_badChrom : cal_fitness badChrom = ⊤ := by
  rw [cal_fitness, if_pos]
  rw [badChrom]
  norm_num

theorem sortByFitness_replicate (n : ℕ) (a : GA_Individual) :
    sortByFitness (List.replicate n a) = List.replicate n a := by
  have hp := List.mergeSort_perm (List.replicate n a)
    (fun x y => decide (x.fitness ≤ y.fitness))
  rw [sortByFitness, List.eq_replicate_iff]
  exact ⟨by rw [hp.length_eq, List.length_replicate],
    fun b hb => List.eq_of_mem_replicate (hp.mem_iff.mp hb)⟩

theorem gaInitPopulation_some (req : ℝ) (s : Scopes) (g : Chrom) (r : ℕ → ℝ) (fuel : ℕ) :
    ∀ (n kr : ℕ), gaInitPopulation req s (some g) r fuel n kr
      = (List.replicate n (GA_Individual.make g), kr) := by
  intro n
  induction n with
  | zero => intro kr; rfl
  | succ m ih =>
    intro kr
    rw [gaInitPopulation, ih]
    rfl

theorem mate_badChrom (kr : ℕ) :
    (GA_Individual.make badChrom).mate (GA_Individual.make badChrom) cexScopes 0.1 zeroR kr
      = .ok (GA_Individual.make badChrom, kr + 5) := by
  rw [GA_Individual.mate, if_neg (by norm_num)]
  have hg : ∀ (g : ℝ) (scope : ℝ × ℝ) (k : ℕ), mateGene g g scope 0.1 zeroR k = (g, k + 1) := by
    intro g scope k
    rw [mateGene, if_pos]
    show (0 : ℝ) < (1 - 0.1) / 2
    norm_num
  simp only [hg]
  rfl

theorem gaChildren_badChrom : ∀ (n kr kc : ℕ),
    gaChildren (List.replicate 3 (GA_Individual.make badChrom)) 1 cexScopes 0.1 zeroR zeroC
        n kr kc
      = .ok (List.replicate n (GA_Individual.make badChrom), kr + 5 * n, kc + 2 * n) := by
  intro n
  induction n with
  | zero => intro kr kc; rfl
  | succ m ih =>
    intro kr kc
    rw [gaChildren]
    have hget : ∀ j : ℕ,
        ((List.replicate 3 (GA_Individual.make badChrom)).take 1).getD (zeroC j % 1) default
          = GA_Individual.make badChrom := fun j => rfl
    rw [hget, hget, mate_badChrom]
    show (match gaChildren (List.replicate 3 (GA_Individual.make badChrom)) 1 cexScopes 0.1
        zeroR zeroC m (kr + 5) (kc + 2) with
      | Except.error e => Except.error e
      | Except.ok rest =>
        Except.ok (GA_Individual.make badChrom :: rest.1, rest.2)) = _
    rw [ih]
    show Except.ok (GA_Individual.make badChrom :: List.replicate m (GA_Individual.make badChrom),
        kr + 5 + 5 * m, kc + 2 + 2 * m) = _
    rw [show kr + 5 + 5 * m = kr + 5 * (m + 1) from by ring,
      show kc + 2 + 2 * m = kc + 2 * (m + 1) from by ring]
    rfl

theorem ga_opt_badChrom_run :
    ga_opt 100 0 cexScopes 3 0.1 (some badChrom) 1 falseT 1e-3 zeroR zeroC 0
      = .ok (some (Tire.ofDims ⟨10, 30, 5, 10, 12⟩)) := by
  rw [ga_opt, if_neg (by norm_num), gaInitPopulation_some]
  show gaLoop cexScopes 3 0.1 1e-3 falseT zeroR zeroC 1 0 0 0
      (sortByFitness (List.replicate 3 (GA_Individual.make badChrom)))
      (sortByFitness (List.replicate 3 (GA_Individual.make badChrom))).headI.fitness
    = .ok (some (Tire.ofDims ⟨10, 30, 5, 10, 12⟩))
  rw [sortByFitness_replicate]
  simp only [gaLoop]
  rw [show ((3 : ℕ) - if (3 : ℕ) ≤ 10 then 1 else 3 / 10) = 2 from rfl,
    show ((3 : ℕ) / 2) = 1 from rfl, gaChildren_badChrom 2 0 0]
  show (if (sortByFitness ((List.replicate 3 (GA_Individual.make badChrom)).take
          (if (3 : ℕ) ≤ 10 then 1 else 3 / 10)
        ++ List.replicate 2 (GA_Individual.make badChrom))).headI.fitness
        < (List.replicate 3 (GA_Individual.make badChrom)).headI.fitness then _ else _) = _
  rw [show (List.replicate 3 (GA_Individual.make badChrom)).take
        (if (3 : ℕ) ≤ 10 then 1 else 3 / 10)
      ++ List.replicate 2 (GA_Individual.make badChrom)
      = List.replicate 3 (GA_Individual.make badChrom) from rfl]
  rw [sortByFitness_replicate]
  rw [show (List.replicate 3 (GA_Individual.make badChrom)).headI.fitness
      = cal_fitness badChrom from rfl, cal_fitness_badChrom]
  rw [if_neg (lt_irrefl _), if_neg (by simp [falseT])]
  rfl

/-- C1 counterexample: ga_opt called with an infeasible initial gene (aspect
ratio 2), a valid mutation probability and a one-generation budget returns
that infeasible design as its result, whatever the random draws: the returned
tire violates the aspect-ratio part of the feasibility invariant. -/
theorem claim_C1_counterexample :
    ga_opt 100 0 cexScopes 3 0.1 (some badChrom) 1 falseT 1e-3 zeroR zeroC 0
      = .ok (some (Tire.ofDims ⟨10, 30, 5, 10, 12⟩)) ∧
    ¬ feasible_result 100 (Tire.ofDims ⟨10, 30, 5, 10, 12⟩) := by
  refine ⟨ga_opt_badChrom_run, ?_⟩
  rintro ⟨h1, h2, h3, h4, h5⟩
  rw [Tire.aspect_ratio] at h4
  norm_num [Tire.ofDims] at h4

/-! ## Claim C8: configuration-error timing -/

/-- C8 amended: a population size below 3 raises ValueError immediately at
ga_opt call time, before any initialization work; but a mutation probability
outside [0, 1] is validated only inside GA_Individual.mate, so the error is
raised during the first generation of the search (after the whole
initialization phase), and not at all when n_iter = 0. -/
theorem claim_C8_config_errors (req si : ℝ) (s : Scopes) (pop_size : ℕ) (pm : ℝ)
    (init_gene : Option Chrom) (n_iter : ℕ) (timeUp : ℕ → Bool) (conv : ℝ)
    (r : ℕ → ℝ) (ch : ℕ → ℕ) (initFuel : ℕ) (p1 p2 : GA_Individual) (k : ℕ) :
    (pop_size < 3 → ga_opt req si s pop_size pm init_gene n_iter timeUp conv r ch initFuel
      = .error "Population size needs to be >= 3 to be effective.") ∧
    ((1 < pm ∨ pm < 0) →
      p1.mate p2 s pm r k = .error "prob_mutate must be between 0 and 1.") ∧
    ((1 < pm ∨ pm < 0) → 3 ≤ pop_size → 1 ≤ n_iter →
      ga_opt req si s pop_size pm init_gene n_iter timeUp conv r ch initFuel
        = .error "prob_mutate must be between 0 and 1.") := by
  refine ⟨fun h => by rw [ga_opt, if_pos h], fun h => by rw [GA_Individual.mate, if_pos h], ?_⟩
  intro hpm hpop hiter
  rw [ga_opt, if_neg (by omega)]
  obtain ⟨f, rfl⟩ := Nat.exists_eq_succ_of_ne_zero (Nat.pos_iff_ne_zero.mp hiter)
  simp only [gaLoop]
  have hsub : ∃ m : ℕ, pop_size - (if pop_size ≤ 10 then 1 else pop_size / 10) = m + 1 := by
    rcases le_or_lt pop_size 10 with hle | hlt
    · rw [if_pos hle]; exact ⟨pop_size - 2, by omega⟩
    · rw [if_neg (not_le.mpr hlt)]
      have : pop_size / 10 < pop_size := Nat.div_lt_self (by omega) (by norm_num)
      exact ⟨pop_size - pop_size / 10 - 1, by omega⟩
  obtain ⟨m, hm⟩ := hsub
  rw [hm, gaChildren, GA_Individual.mate, if_pos hpm]

/-- C8 counterexample: with a mutation probability of 2 (outside [0, 1]) and a
zero iteration budget, ga_opt returns normally instead of raising a
configuration error at call time. -/
theorem claim_C8_counterexample :
    ga_opt 100 0 cexScopes 3 2 (some badChrom) 0 falseT 1e-3 zeroR zeroC 0
      = .ok (some (Tire.ofDims ⟨10, 30, 5, 10, 12⟩)) := by
  rw [ga_opt, if_neg (by norm_num), gaInitPopulation_some]
  show gaLoop cexScopes 3 2 1e-3 falseT zeroR zeroC 0 0 0 0
      (sortByFitness (List.replicate 3 (GA_Individual.make badChrom)))
      (sortByFitness (List.replicate 3 (GA_Individual.make badChrom))).headI.fitness
    = .ok (some (Tire.ofDims ⟨10, 30, 5, 10, 12⟩))
  rw [sortByFitness_replicate]
  rfl

/-- Witness for C8 at concrete inputs: pop_size 2 errors at call time, and a
bad mutation probability errors at the first mating of a one-generation run. -/
theorem claim_C8_config_errors_witness :
    ga_opt 100 0 cexScopes 2 0.1 (some badChrom) 1 falseT 1e-3 zeroR zeroC 0
      = .error "Population size needs to be >= 3 to be effective." ∧
    (GA_Individual.make badChrom).mate (GA_Individual.make badChrom) cexScopes 2 zeroR 0
      = .error "prob_mutate must be between 0 and 1." ∧
    ga_opt 100 0 cexScopes 3 2 (some badChrom) 1 falseT 1e-3 zeroR zeroC 0
      = .error "prob_mutate must be between 0 and 1." :=
  ⟨(claim_C8_config_errors 100 0 cexScopes 2 0.1 (some badChrom) 1 falseT 1e-3 zeroR zeroC 0
      default default 0).1 (by norm_num),
    (claim_C8_config_errors 100 0 cexScopes 2 2 (some badChrom) 1 falseT 1e-3 zeroR zeroC 0
      (GA_Individual.make badChrom) (GA_Individual.make badChrom) 0).2.1 (by norm_num),
    (claim_C8_config_errors 100 0 cexScopes 3 2 (some badChrom) 1 falseT 1e-3 zeroR zeroC 0
      default default 0).2.2 (by norm_num) (by norm_num) (by norm_num)⟩

/-! ## Claim C4: runtime checks of the internal loops -/

theorem gaFindGnome_stuck (req : ℝ) (s : Scopes) (r : ℕ → ℝ)
    (hall : ∀ k, cal_fitness (create_gnome req s r k) = ⊤) :
    ∀ (fuel : ℕ) (g : GA_Individual) (kr : ℕ), g.fitness = ⊤ →
      (gaFindGnome req s r fuel g kr).1.fitness = ⊤ := by
  intro fuel
  induction fuel with
  | zero => intro g kr h; exact h
  | succ n ih =>
    intro g kr h
    rw [gaFindGnome, if_pos h]
    exact ih _ _ (hall kr)

theorem rs_rand_init_none_of_timeup (req : ℝ) (sample : ℕ → Dims) (fuel : ℕ)
    (h0 : is_geo_valid (sample 0) req = none) (hf : 1 ≤ fuel) :
    rs_rand_init req sample (fun _ => true) fuel 0 = none := by
  obtain ⟨m, rfl⟩ := Nat.exists_eq_succ_of_ne_zero (Nat.pos_iff_ne_zero.mp hf)
  rw [rs_rand_init]
  simp only [h0]
  rfl

/-- C4 amended: the initialization loops of rs_discrete and rs_continuous do
check the elapsed runtime at each iteration and return the explicit
no-solution result None once the budget is exhausted; but the initialization
loops of ga_opt (and pso_opt) and the retry loops of bayesOps_opt and
gradients_opt contain no runtime check at all: when every drawable design is
infeasible the ga_opt initialization loop is still running, in its infeasible
state, after any number of iterations (see also the all-fail conjuncts of the
C6 and C7 theorems for the retry loops). -/
theorem claim_C4_runtime_checks (req si : ℝ) (sD : DScopes) (sC : Scopes) (stepD : ℕ)
    (stepC : ℝ) (n_iter : ℕ) (fitness : ℝ) (sample : ℕ → Dims) (initFuel : ℕ)
    (s : Scopes) (r : ℕ → ℝ) :
    (is_geo_valid (sample 0) req = none → 1 ≤ initFuel →
      rs_discrete req si sD stepD n_iter (fun _ => true) fitness none sample initFuel
        = none) ∧
    (is_geo_valid (sample 0) req = none → 1 ≤ initFuel →
      rs_continuous req si sC stepC n_iter (fun _ => true) fitness none sample initFuel
        = none) ∧
    ((∀ k, cal_fitness (create_gnome req s r k) = ⊤) →
      ∀ (fuel : ℕ) (g : GA_Individual) (kr : ℕ), g.fitness = ⊤ →
        (gaFindGnome req s r fuel g kr).1.fitness = ⊤) := by
  refine ⟨?_, ?_, gaFindGnome_stuck req s r⟩
  · intro h0 hf
    rw [rs_discrete.eq_def]
    rw [rs_rand_init_none_of_timeup req sample initFuel h0 hf]
  · intro h0 hf
    rw [rs_continuous.eq_def]
    rw [rs_rand_init_none_of_timeup req sample initFuel h0 hf]

/-- A sampling stream that always produces the infeasible design of badChrom. -/
def badSample : ℕ → Dims := fun _ => ⟨10, 30, 5, 10, 12⟩

theorem is_geo_valid_badSample : is_geo_valid (badSample 0) 100 = none := by
  rw [is_geo_valid, if_pos]
  rw [badSample]
  norm_num

theorem create_gnome_stuck (r : ℕ → ℝ) (k : ℕ) :
    create_gnome 100 stuckScopes r k = badChrom := by
  rw [create_gnome, badChrom]
  simp only [stuckScopes, mutated_gene]
  congr 1 <;> ring

/-- Witness for C4 at concrete inputs: with the runtime budget already
exhausted and an infeasible first sample, both random-search variants return
None, and with degenerate one-point scopes whose only design is infeasible
the ga_opt initialization loop is still unfinished after 100 iterations. -/
theorem claim_C4_runtime_checks_witness :
    rs_discrete 100 0 ⟨[10], [30], [5], [10], [12]⟩ 1 5 (fun _ => true) 1e-3 none
        badSample 7 = none ∧
    rs_continuous 100 0 stuckScopes 1 5 (fun _ => true) 1e-3 none badSample 7 = none ∧
    (gaFindGnome 100 stuckScopes zeroR 100
        (GA_Individual.make ⟨0.01, 0.01, 0.01, 0.01, 0.01, 100⟩) 0).1.fitness = ⊤ := by
  have hc := claim_C4_runtime_checks 100 0 ⟨[10], [30], [5], [10], [12]⟩ stuckScopes 1 1 5
    1e-3 badSample 7 stuckScopes zeroR
  refine ⟨hc.1 is_geo_valid_badSample (by norm_num),
    hc.2.1 is_geo_valid_badSample (by norm_num), ?_⟩
  refine hc.2.2 (fun k => ?_) 100 _ 0 ?_
  · rw [create_gnome_stuck]
    exact cal_fitness_badChrom
  · show cal_fitness ⟨0.01, 0.01, 0.01, 0.01, 0.01, 100⟩ = ⊤
    rw [cal_fitness, if_pos]
    norm_num

/-- C4 counterexample: the ga_opt initialization loop performs no runtime
check: with one-point scopes whose only drawable design is infeasible, after
250 iterations the loop state is still an infeasible gnome, so the loop exit
condition has never become true (the helper lemma gaFindGnome_stuck shows the
same for every iteration count); the wall-clock budget does not appear in the
loop at all, so with an unattainable required load the source loop never
returns. -/
theorem claim_C4_counterexample :
    (gaFindGnome 100 stuckScopes zeroR 250
      (GA_Individual.make ⟨0.01, 0.01, 0.01, 0.01, 0.01, 100⟩) 0).1.fitness = ⊤ := by
  refine gaFindGnome_stuck 100 stuckScopes zeroR (fun k => ?_) 250 _ 0 ?_
  · rw [create_gnome_stuck]
    exact cal_fitness_badChrom
  · show cal_fitness ⟨0.01, 0.01, 0.01, 0.01, 0.01, 100⟩ = ⊤
    rw [cal_fitness, if_pos]
    norm_num

/-! ## Claim C5: domain failures, NaN, and the feasibility boundary -/

/-- A design passing no geometric screening: Wm = 1 makes the square-root
argument of the ground contact area negative. -/
def nanDims : Dims := ⟨10, 30, 1, 10, 12⟩

/-- C5 counterexample: the code raises no typed DomainError for a negative
square-root argument: evaluating ground_contact_area at Wm = 1, Dm = 30,
DF = 12 (deflection d = 2.88 exceeds Wm) gives a negative square-root
argument, and numpy.sqrt silently coerces the result to NaN (modelled as
none) instead of raising. -/
theorem claim_C5_counterexample :
    (Tire.ofDims nanDims).gca_sqrt_arg 0.32 < 0 ∧
    (Tire.ofDims nanDims).ground_contact_area_fp 0.32 = none := by
  have harg : (Tire.ofDims nanDims).gca_sqrt_arg 0.32 < 0 := by
    rw [Tire.gca_sqrt_arg]
    show (30 - 0.32 * ((30 : ℝ) - 12) / 2) * (1 - 0.32 * ((30 : ℝ) - 12) / 2) < 0
    norm_num
  refine ⟨harg, ?_⟩
  rw [Tire.ground_contact_area_fp, npSqrt, if_neg (not_le.mpr harg)]
  rfl

/-- C5 amended: the code defines no DomainError type: numpy.sqrt of a negative
argument yields NaN silently (see the counterexample).  However, the
feasibility predicate rejects geometry-invalid designs before the oracle is
invoked, and for every design that passes the geometric screening (with a
nonnegative rim diameter) the square-root argument is strictly positive, so
the oracle evaluation performed by is_geo_valid never encounters the domain
failure and NaN never reaches an accepted design. -/
theorem claim_C5_no_nan_past_geometry (dim : Dims) :
    0 ≤ dim.D →
    ¬ (dim.Dm ≤ dim.DF ∨ dim.DF ≤ dim.D ∨ (dim.Dm - dim.D) / 2 / dim.Wm < 0.5 ∨
        1 < (dim.Dm - dim.D) / 2 / dim.Wm) →
    0 < (Tire.ofDims dim).gca_sqrt_arg 0.32 ∧
    (Tire.ofDims dim).ground_contact_area_fp 0.32
      = some ((Tire.ofDims dim).ground_contact_area 0.32) := by
  intro hD0 hgeo
  push_neg at hgeo
  obtain ⟨hDF, hD, hasp1, hasp2⟩ := hgeo
  have hWm : 0 < dim.Wm := by
    rcases lt_trichotomy dim.Wm 0 with hneg | hzero | hpos
    · exfalso
      have hnum : 0 < (dim.Dm - dim.D) / 2 := by linarith
      have : (dim.Dm - dim.D) / 2 / dim.Wm < 0 := div_neg_of_pos_of_neg hnum hneg
      linarith
    · exfalso
      rw [hzero, div_zero] at hasp1
      linarith
    · exact hpos
  have hd : (0.32 : ℝ) * (dim.Dm - dim.DF) / 2 = 0.16 * (dim.Dm - dim.DF) := by ring
  have hdpos : 0 < 0.16 * (dim.Dm - dim.DF) := by nlinarith
  have hDm0 : 0 < dim.Dm := by linarith
  have hDF0 : 0 < dim.DF := by linarith
  have h1 : 0 < dim.Dm - 0.16 * (dim.Dm - dim.DF) := by nlinarith
  have hle : (dim.Dm - dim.D) / 2 ≤ dim.Wm := by
    have := (div_le_one hWm).mp hasp2
    linarith
  have h2 : 0 < dim.Wm - 0.16 * (dim.Dm - dim.DF) := by nlinarith
  have harg : 0 < (Tire.ofDims dim).gca_sqrt_arg 0.32 := by
    rw [Tire.gca_sqrt_arg]
    show 0 < (dim.Dm - 0.32 * (dim.Dm - dim.DF) / 2) * (dim.Wm - 0.32 * (dim.Dm - dim.DF) / 2)
    rw [hd]
    exact mul_pos h1 h2
  refine ⟨harg, ?_⟩
  rw [Tire.ground_contact_area_fp, npSqrt, if_pos (le_of_lt harg)]
  rfl

/-- Witness for C5 at the concrete geometry-valid design PR 10, Dm 21, Wm 7,
D 10, DF 12. -/
theorem claim_C5_no_nan_past_geometry_witness :
    0 < (Tire.ofDims ⟨10, 21, 7, 10, 12⟩).gca_sqrt_arg 0.32 ∧
    (Tire.ofDims ⟨10, 21, 7, 10, 12⟩).ground_contact_area_fp 0.32
      = some ((Tire.ofDims ⟨10, 21, 7, 10, 12⟩).ground_contact_area 0.32) :=
  claim_C5_no_nan_past_geometry ⟨10, 21, 7, 10, 12⟩ (by norm_num) (by norm_num)

/-! ## Exact oracle values at the concrete design PR 10, Dm 21, Wm 7, D 10, DF 12 -/

/-- The key dimensions of the 21x7.25-10 databook example of models.py. -/
def dims2110 : Dims := ⟨10, 21, 7, 10, 12⟩

theorem pressure_index_2110 :
    (Tire.ofDims dims2110).pressure_index = 100625817600 / 831832927 := by
  simp only [Tire.pressure_index, Tire.ratio_of_ends_per_inch, Tire.Lr, Tire.ofDims, dims2110]
  rw [ratioOfEndsPerInch, if_pos (by norm_num)]
  norm_num

theorem load_supporting_2110 :
    (Tire.ofDims dims2110).load_supporting_capability = 1040 / 49 := by
  simp only [Tire.load_supporting_capability, Tire.ofDims, dims2110]
  rw [if_neg (by norm_num)]
  norm_num

theorem inflation_pressure_2110 :
    (Tire.ofDims dims2110).inflation_pressure = 5485497624709 / 40759813423 := by
  simp only [Tire.inflation_pressure]
  rw [if_neg (by
    rintro (h | h | ⟨h1, h2⟩)
    · exact absurd h (by decide)
    · exact absurd h (by decide)
    · exact h1 rfl)]
  rw [pressure_index_2110, load_supporting_2110]
  rw [if_pos (by norm_num)]
  norm_num

theorem sqrt_arg_2110_bounds :
    (10.4284 : ℝ) < Real.sqrt ((67971 : ℝ) / 625) ∧
      Real.sqrt ((67971 : ℝ) / 625) < 10.4286 := by
  constructor
  · rw [show (10.4284 : ℝ) = Real.sqrt (10.4284 ^ 2) from by
      rw [Real.sqrt_sq (by norm_num)]]
    exact Real.sqrt_lt_sqrt (by norm_num) (by norm_num)
  · exact (Real.sqrt_lt' (by norm_num)).mpr (by norm_num)

theorem max_load_2110_eq :
    (Tire.ofDims dims2110).max_load_capacity true
      = (0.77 * (36 / 25) * (100625817600 / 831832927 + 1040 / 49))
          * (Real.pi * Real.sqrt ((67971 : ℝ) / 625)) := by
  simp only [Tire.max_load_capacity, Tire.ground_contact_area, if_true]
  rw [pressure_index_2110, load_supporting_2110]
  simp only [Tire.ofDims, dims2110]
  rw [show (21 - 0.32 * ((21 : ℝ) - 12) / 2) * (7 - 0.32 * ((21 : ℝ) - 12) / 2)
      = (67971 : ℝ) / 625 from by norm_num]
  ring

theorem max_load_2110_window :
    5162.5 < (Tire.ofDims dims2110).max_load_capacity true ∧
    (Tire.ofDims dims2110).max_load_capacity true < 5170 := by
  rw [max_load_2110_eq]
  obtain ⟨hs1, hs2⟩ := sqrt_arg_2110_bounds
  have hs0 : (0 : ℝ) ≤ Real.sqrt ((67971 : ℝ) / 625) := Real.sqrt_nonneg _
  have hpi1 := Real.pi_gt_d6
  have hpi2 := Real.pi_lt_d6
  have hpi0 := Real.pi_pos
  have hlow : (3.141592 : ℝ) * 10.4284 < Real.pi * Real.sqrt ((67971 : ℝ) / 625) :=
    mul_lt_mul'' hpi1 hs1 (by norm_num) (by norm_num)
  have hhigh : Real.pi * Real.sqrt ((67971 : ℝ) / 625) < 3.141593 * 10.4286 :=
    mul_lt_mul'' hpi2 hs2 (le_of_lt hpi0) hs0
  constructor <;> nlinarith

theorem max_load_2110_rounded :
    (Tire.ofDims dims2110).max_load_capacity false = 5175 := by
  rw [max_load_capacity_false_eq, npRound]
  obtain ⟨hlo, hhi⟩ := max_load_2110_window
  have hfl : ⌊(Tire.ofDims dims2110).max_load_capacity true / 25⌋ = 206 := by
    rw [Int.floor_eq_iff]
    constructor
    · push_cast
      linarith
    · push_cast
      linarith
  have hfr : 1 / 2 < Int.fract ((Tire.ofDims dims2110).max_load_capacity true / 25) := by
    rw [Int.fract, hfl]
    push_cast
    linarith
  rw [roundHalfEven, if_neg (by linarith), if_pos hfr, hfl]
  norm_num

theorem ceil_ten_eighths : (⌈(10 : ℝ) / 8⌉ : ℤ) = 2 := by
  rw [Int.ceil_eq_iff] <;> norm_num

theorem t2110_PR : (Tire.ofDims dims2110).PR = 10 := rfl

theorem t2110_Dm : (Tire.ofDims dims2110).Dm = 21 := rfl

theorem t2110_Wm : (Tire.ofDims dims2110).Wm = 7 := rfl

theorem t2110_D : (Tire.ofDims dims2110).D = 10 := rfl

theorem t2110_DF : (Tire.ofDims dims2110).DF = 12 := rfl

theorem t2110_SI : (Tire.ofDims dims2110).SI = 0 := rfl

theorem walter_2110 :
    (Tire.ofDims dims2110).cord_tension_walter 0 0 < 338 := by
  simp only [Tire.cord_tension_walter, t2110_PR, t2110_Dm, t2110_D, t2110_SI, if_true]
  rw [ceil_ten_eighths, inflation_pressure_2110]
  rw [show (30.0 : ℝ) * degC = Real.pi / 6 from by rw [degC]; ring,
    show (45.00 : ℝ) * degC = Real.pi / 4 from by rw [degC]; ring]
  rw [Real.cos_pi_div_six, Real.sin_pi_div_four]
  rw [show ((0 : ℝ) * (mileC / inchC / hourC) / (21 / 2)) = 0 from by ring]
  rw [show ((21 : ℝ) / 2 * 0 ^ 2 / (5485497624709 / 40759813423)) = 0 from by norm_num]
  rw [show (Real.sqrt 2 / 2) ^ 2 = 1 / 2 from by
    rw [div_pow, Real.sq_sqrt (by norm_num : (0 : ℝ) ≤ 2)]
    norm_num]
  have hpi := Real.pi_lt_315
  have hpi0 := Real.pi_pos
  have hs3 : Real.sqrt 3 < 1.74 := (Real.sqrt_lt' (by norm_num)).mpr (by norm_num)
  have hs30 : (0 : ℝ) ≤ Real.sqrt 3 := Real.sqrt_nonneg 3
  have hps : Real.pi * Real.sqrt 3 < 3.15 * 1.74 :=
    mul_lt_mul'' hpi hs3 (le_of_lt hpi0) hs30
  have hps0 : 0 ≤ Real.pi * Real.sqrt 3 := mul_nonneg (le_of_lt hpi0) hs30
  rw [lbfC]
  ring_nf
  nlinarith [hps, hps0]

theorem mass_2110_bounds :
    0 < (Tire.ofDims dims2110).mass ∧ (Tire.ofDims dims2110).mass < 1000 := by
  rw [Tire.mass]
  simp only [Tire.inflation_medium_mass, t2110_Dm, t2110_Wm, t2110_D, if_true]
  rw [inflation_pressure_2110]
  simp only [psiC, lbfC, inchC, RgasC]
  have hpi2 : Real.pi ^ 2 < 9.9225 := by
    have hpi := Real.pi_lt_315
    have hpi0 := Real.pi_pos
    nlinarith
  have hpi20 : 0 < Real.pi ^ 2 := by positivity
  constructor
  · positivity
  · ring_nf
    nlinarith [hpi2, hpi20]

theorem bayesFinalCheck_2110 :
    bayesFinalCheck dims2110 5170 = some (Tire.ofDims dims2110) := by
  rw [bayesFinalCheck, if_pos (by rw [max_load_2110_rounded]; norm_num)]

/-- C6 counterexample: the final re-validation of the Bayesian optimizer
accepts the design PR 10, Dm 21, Wm 7, D 10, DF 12 against a required load of
5170 lbs, because its rounded capacity is 5175; yet its exact capacity is
below 5170, so the returned tire does not satisfy the required load capacity
in the exact sense used by the feasibility invariant. -/
theorem claim_C6_counterexample :
    bayesOps_opt (fun _ => bayesFinalCheck dims2110 5170) 1 0
      = some (Tire.ofDims dims2110) ∧
    (Tire.ofDims dims2110).max_load_capacity true < 5170 := by
  refine ⟨?_, max_load_2110_window.2⟩
  rw [bayesOps_opt]
  show (match bayesFinalCheck dims2110 5170 with
    | some t => some t
    | none => bayesOps_opt (fun _ => bayesFinalCheck dims2110 5170) 0 1) = _
  rw [bayesFinalCheck_2110]

/-- Witness for C6 at concrete inputs: the final check passes the concrete
design at required load 5170, and the wrapper returns a design produced by
some attempt. -/
theorem claim_C6_bayes_revalidation_witness :
    (5170 : ℝ) ≤ (Tire.ofDims dims2110).max_load_capacity false ∧
    (∃ j : ℕ, (fun _ : ℕ => some (Tire.ofDims dims2110)) j
      = some (Tire.ofDims dims2110)) :=
  ⟨(claim_C6_bayes_revalidation dims2110 5170 (Tire.ofDims dims2110)
      (fun _ => some (Tire.ofDims dims2110)) 1 0).1 bayesFinalCheck_2110,
    (claim_C6_bayes_revalidation dims2110 5170 (Tire.ofDims dims2110)
      (fun _ => some (Tire.ofDims dims2110)) 1 0).2.1 (by rw [bayesOps_opt])⟩

/-! ## Claim C10: the mechanical-feasibility gate is always applied -/

/-- C10: every acceptance path of the four feasibility gates (is_geo_valid of
the random search, GA_Individual.cal_fitness, PSO_Particle.calc_obj, and the
Bayesian objective function) requires mechanical feasibility under the
default walter cord-tension model with break load 338.0 N (is_mech_feasible
holds exactly when the walter cord tension is strictly below the break load);
the check is unconditional on each path. -/
theorem claim_C10_mech_gate (dim : Dims) (req : ℝ) (t : Tire) (c : Chrom)
    (p : PSO_Particle) :
    (is_geo_valid dim req = some t → t.is_mech_feasible "walter" 338.0) ∧
    (cal_fitness c ≠ ⊤ → (Tire.ofDims c.dims).is_mech_feasible "walter" 338.0) ∧
    (PSO_Particle.calc_obj p ≠ ⊤ →
      (Tire.ofDims p.position).is_mech_feasible "walter" 338.0) ∧
    (bayes_objective req dim ≠ -1e24 →
      (Tire.ofDims dim).is_mech_feasible "walter" 338.0) := by
  refine ⟨?_, ?_, ?_, ?_⟩
  · intro h
    simp only [is_geo_valid] at h
    split_ifs at h with h1 h2 h3
    cases h
    exact h3
  · intro h
    simp only [cal_fitness] at h
    split_ifs at h with h1 h2 h3
    · exact absurd rfl h
    · exact absurd rfl h
    · exact h3
    · exact absurd rfl h
  · intro h
    simp only [PSO_Particle.calc_obj] at h
    split_ifs at h with h1 h2 h3
    · exact absurd rfl h
    · exact absurd rfl h
    · exact h3
    · exact absurd rfl h
  · intro h
    simp only [bayes_objective] at h
    split_ifs at h with h1 h2 h3
    · exact absurd rfl h
    · exact absurd rfl h
    · exact h3
    · exact absurd rfl h

theorem mech_2110 : (Tire.ofDims dims2110).is_mech_feasible "walter" 338.0 := by
  rw [Tire.is_mech_feasible, if_pos rfl]
  exact lt_of_lt_of_le walter_2110 (by norm_num)

theorem is_geo_valid_2110 : is_geo_valid dims2110 0 = some (Tire.ofDims dims2110) := by
  simp only [is_geo_valid]
  rw [if_neg (by norm_num [dims2110]),
    if_neg (not_lt.mpr (by linarith [max_load_2110_window.1])), if_pos mech_2110]

theorem cal_fitness_2110 :
    cal_fitness ⟨10, 21, 7, 10, 12, 0⟩ ≠ ⊤ := by
  simp only [cal_fitness]
  rw [show Chrom.dims ⟨10, 21, 7, 10, 12, 0⟩ = dims2110 from rfl]
  rw [if_neg (by norm_num), if_neg (not_lt.mpr (by linarith [max_load_2110_window.1])),
    if_neg (not_not_intro mech_2110)]
  exact WithTop.coe_ne_top

theorem calc_obj_2110 :
    PSO_Particle.calc_obj ⟨0, dims2110⟩ ≠ ⊤ := by
  simp only [PSO_Particle.calc_obj]
  rw [if_neg (by norm_num [dims2110]),
    if_neg (not_lt.mpr (by linarith [max_load_2110_window.1])),
    if_neg (not_not_intro mech_2110)]
  exact WithTop.coe_ne_top

theorem bayes_objective_2110 :
    bayes_objective 0 dims2110 ≠ -1e24 := by
  simp only [bayes_objective]
  rw [if_neg (by norm_num [dims2110]),
    if_neg (not_lt.mpr (by rw [max_load_2110_rounded]; norm_num)),
    if_neg (not_not_intro mech_2110)]
  intro h
  rw [neg_inj] at h
  have := mass_2110_bounds.2
  rw [h] at this
  norm_num at this

/-- Witness for C10: all four gates accept the concrete design PR 10, Dm 21,
Wm 7, D 10, DF 12 at required load 0, and the theorem then yields its
mechanical feasibility. -/
theorem claim_C10_mech_gate_witness :
    (Tire.ofDims dims2110).is_mech_feasible "walter" 338.0 ∧
    (Tire.ofDims (Chrom.dims ⟨10, 21, 7, 10, 12, 0⟩)).is_mech_feasible "walter" 338.0 ∧
    (Tire.ofDims (PSO_Particle.mk 0 dims2110).position).is_mech_feasible "walter" 338.0 :=
  ⟨(claim_C10_mech_gate dims2110 0 (Tire.ofDims dims2110) ⟨10, 21, 7, 10, 12, 0⟩
      ⟨0, dims2110⟩).1 is_geo_valid_2110,
    (claim_C10_mech_gate dims2110 0 (Tire.ofDims dims2110) ⟨10, 21, 7, 10, 12, 0⟩
      ⟨0, dims2110⟩).2.1 cal_fitness_2110,
    (claim_C10_mech_gate dims2110 0 (Tire.ofDims dims2110) ⟨10, 21, 7, 10, 12, 0⟩
      ⟨0, dims2110⟩).2.2.1 calc_obj_2110⟩

end TireSel

end
